import Mathlib

/-!
Verification development for the 8-bit MVE frame decoder
(d2x-rebirth/libmve/decoder8.cpp).

The decoder walks a frame of 8x8 pixel blocks, two 4-bit opcodes per map
byte, and reconstructs each block from a payload stream.  We embed the C
code shallowly:

* memory is a total function from integer byte offsets to byte values
  (`Mem`); the current frame buffer starts at offset 0 (the C pointer
  `vBackBuf1`), the historical buffer at offset `histOff`
  (the C pointer difference `vBackBuf2 - vBackBuf1`);
* the payload and the opcode map are read-only byte streams
  (`Nat → Nat`, read through `rdByte` which models a `uint8` load);
* the in/out parameters of `dispatchDecoder` (`pFrame`, `pData`,
  `pDataRemain`, `curXb`, `curYb`) are fields of an explicit state
  record `St`, together with the map cursor of `decodeFrame8` and a log
  of the emitted out-of-bounds diagnostics;
* the two nested `for` loops of `decodeFrame8` are embedded as
  fuel-indexed recursions (the loop counters are mutated by opcode 0x6,
  so the loops have no structural measure; the fuel dominates every
  terminating execution that the claims are about).
-/

set_option maxHeartbeats 1000000
set_option maxRecDepth 4000
set_option linter.unusedTactic false

namespace MVE

/-- Byte-addressed memory: a total map from integer offsets to byte values. -/
abbrev Mem := Int → Nat

/-- Store one byte at offset a. -/
def writeMem (m : Mem) (a : Int) (v : Nat) : Mem :=
  fun x => if x = a then v else m x

/-- Read one byte from a read-only stream; models a uint8 load. -/
def rdByte (d : Nat → Nat) (n : Nat) : Nat := d n % 256

/-- Source function relClose: high nibble is y-8, low nible is x-8. -/
def relClose (i : Nat) : Int × Int :=
  (((i % 16 : Nat) : Int) - 8, ((i / 16 : Nat) : Int) - 8)

/-- Source function relFar: decodes one payload byte into a signed
(x, y) offset pair using the lopsided far mapping. -/
def relFar (i : Nat) (sign : Int) : Int × Int :=
  if i < 56 then
    (sign * (8 + ((i % 7 : Nat) : Int)), sign * ((i / 7 : Nat) : Int))
  else
    (sign * (-14 + (((i - 56) % 29 : Nat) : Int)),
     sign * (8 + (((i - 56) / 29 : Nat) : Int)))

/-- Reinterpret a byte as a signed 8-bit value (the int8_t cast in case 0x5). -/
def toInt8 (b : Nat) : Int :=
  if b % 256 < 128 then ((b % 256 : Nat) : Int) else ((b % 256 : Nat) : Int) - 256

/-- Select one of four colors by a 2-bit value (the p[...] indexing). -/
def pick4 (p0 p1 p2 p3 sel : Nat) : Nat :=
  match sel with
  | 0 => p0
  | 1 => p1
  | 2 => p2
  | _ => p3

/-- Write eight consecutive bytes a .. a+7, the k-th byte receiving v k.
This is the store pattern shared by all the one-row primitives (their C
loops advance the write pointer by one per store). -/
def writeRow8 (m : Mem) (a : Int) (v : Nat → Nat) : Mem :=
  let m := writeMem m a (v 0)
  let m := writeMem m (a + 1) (v 1)
  let m := writeMem m (a + 2) (v 2)
  let m := writeMem m (a + 3) (v 3)
  let m := writeMem m (a + 4) (v 4)
  let m := writeMem m (a + 5) (v 5)
  let m := writeMem m (a + 6) (v 6)
  let m := writeMem m (a + 7) (v 7)
  m

/-- Write four consecutive bytes a .. a+3 (one 4-pixel quadrant row). -/
def writeRow4 (m : Mem) (a : Int) (v : Nat → Nat) : Mem :=
  let m := writeMem m a (v 0)
  let m := writeMem m (a + 1) (v 1)
  let m := writeMem m (a + 2) (v 2)
  let m := writeMem m (a + 3) (v 3)
  m

/-- Source patternRow4Pixels: eight pixels, two bits each, low pair first. -/
def patternRow4Pixels (m : Mem) (a : Int) (pat0 pat1 p0 p1 p2 p3 : Nat) : Mem :=
  writeRow8 m a (fun c => pick4 p0 p1 p2 p3 ((pat1 * 256 + pat0) / 4 ^ c % 4))

/-- Source patternRow4Pixels2: four 2x2 boxes over two rows, two bits per
box; the stores follow the source order (upper-left, upper-right,
lower-left, lower-right of each box, boxes left to right). -/
def patternRow4Pixels2 (w : Nat) (m : Mem) (a : Int) (pat0 p0 p1 p2 p3 : Nat) : Mem :=
  let q : Nat → Nat := fun cell => pick4 p0 p1 p2 p3 (pat0 / 4 ^ cell % 4)
  let m := writeMem m a (q 0)
  let m := writeMem m (a + 1) (q 0)
  let m := writeMem m (a + (w : Int)) (q 0)
  let m := writeMem m (a + (w : Int) + 1) (q 0)
  let m := writeMem m (a + 2) (q 1)
  let m := writeMem m (a + 3) (q 1)
  let m := writeMem m (a + (w : Int) + 2) (q 1)
  let m := writeMem m (a + (w : Int) + 3) (q 1)
  let m := writeMem m (a + 4) (q 2)
  let m := writeMem m (a + 5) (q 2)
  let m := writeMem m (a + (w : Int) + 4) (q 2)
  let m := writeMem m (a + (w : Int) + 5) (q 2)
  let m := writeMem m (a + 6) (q 3)
  let m := writeMem m (a + 7) (q 3)
  let m := writeMem m (a + (w : Int) + 6) (q 3)
  let m := writeMem m (a + (w : Int) + 7) (q 3)
  m

/-- Source patternRow4Pixels2x1: four 2x1 boxes in one row, two bits per box. -/
def patternRow4Pixels2x1 (m : Mem) (a : Int) (pat p0 p1 p2 p3 : Nat) : Mem :=
  writeRow8 m a (fun c => pick4 p0 p1 p2 p3 (pat / 4 ^ (c / 2) % 4))

/-- Source patternQuadrant4Pixels: a 4x4 quadrant, two bits per pixel,
pattern bytes packed little-endian into one 32-bit word. -/
def patternQuadrant4Pixels (w : Nat) (m : Mem) (a : Int)
    (pat0 pat1 pat2 pat3 p0 p1 p2 p3 : Nat) : Mem :=
  let pat := ((pat3 * 256 + pat2) * 256 + pat1) * 256 + pat0
  let q : Nat → Nat := fun k => pick4 p0 p1 p2 p3 (pat / 4 ^ k % 4)
  let m := writeRow4 m a (fun c => q c)
  let m := writeRow4 m (a + (w : Int)) (fun c => q (4 + c))
  let m := writeRow4 m (a + 2 * (w : Int)) (fun c => q (8 + c))
  let m := writeRow4 m (a + 3 * (w : Int)) (fun c => q (12 + c))
  m

/-- Source patternRow2Pixels: eight pixels in one row, one bit each,
least significant bit leftmost; set bit selects p1, clear bit p0. -/
def patternRow2Pixels (m : Mem) (a : Int) (pat p0 p1 : Nat) : Mem :=
  writeRow8 m a (fun c => if Nat.testBit pat c then p1 else p0)

/-- Source patternRow2Pixels2: four 2x2 boxes over two rows, one bit per
box; stores follow the source order within each box. -/
def patternRow2Pixels2 (w : Nat) (m : Mem) (a : Int) (pat p0 p1 : Nat) : Mem :=
  let q : Nat → Nat := fun cell => if Nat.testBit pat cell then p1 else p0
  let m := writeMem m a (q 0)
  let m := writeMem m (a + 1) (q 0)
  let m := writeMem m (a + (w : Int)) (q 0)
  let m := writeMem m (a + (w : Int) + 1) (q 0)
  let m := writeMem m (a + 2) (q 1)
  let m := writeMem m (a + 3) (q 1)
  let m := writeMem m (a + (w : Int) + 2) (q 1)
  let m := writeMem m (a + (w : Int) + 3) (q 1)
  let m := writeMem m (a + 4) (q 2)
  let m := writeMem m (a + 5) (q 2)
  let m := writeMem m (a + (w : Int) + 4) (q 2)
  let m := writeMem m (a + (w : Int) + 5) (q 2)
  let m := writeMem m (a + 6) (q 3)
  let m := writeMem m (a + 7) (q 3)
  let m := writeMem m (a + (w : Int) + 6) (q 3)
  let m := writeMem m (a + (w : Int) + 7) (q 3)
  m

/-- Source patternQuadrant2Pixels: a 4x4 quadrant, one bit per pixel,
pattern bytes packed little-endian into one 16-bit word, row-major. -/
def patternQuadrant2Pixels (w : Nat) (m : Mem) (a : Int) (pat0 pat1 p0 p1 : Nat) : Mem :=
  let pat := pat1 * 256 + pat0
  let q : Nat → Nat := fun k => if Nat.testBit pat k then p1 else p0
  let m := writeRow4 m a (fun c => q c)
  let m := writeRow4 m (a + (w : Int)) (fun c => q (4 + c))
  let m := writeRow4 m (a + 2 * (w : Int)) (fun c => q (8 + c))
  let m := writeRow4 m (a + 3 * (w : Int)) (fun c => q (12 + c))
  m

/-- Copy one 8-byte row from offset src to offset dest.  std::copy_n
requires the ranges not to overlap, so the snapshot semantics used here
coincides with the source on every defined execution. -/
def copyRow (m : Mem) (dest src : Int) : Mem :=
  writeRow8 m dest (fun c => m (src + (c : Int)))

/-- Source copyFrame: copy an 8x8 block, row by row; later rows read
memory as already modified by earlier rows, as the C loop does. -/
def copyFrame (w : Nat) (m : Mem) (dest src : Int) : Mem :=
  let m := copyRow m dest src
  let m := copyRow m (dest + (w : Int)) (src + (w : Int))
  let m := copyRow m (dest + 2 * (w : Int)) (src + 2 * (w : Int))
  let m := copyRow m (dest + 3 * (w : Int)) (src + 3 * (w : Int))
  let m := copyRow m (dest + 4 * (w : Int)) (src + 4 * (w : Int))
  let m := copyRow m (dest + 5 * (w : Int)) (src + 5 * (w : Int))
  let m := copyRow m (dest + 6 * (w : Int)) (src + 6 * (w : Int))
  let m := copyRow m (dest + 7 * (w : Int)) (src + 7 * (w : Int))
  m

/-- Case 0xd helper: one 8x4 half-band; the left 4x4 quadrant is filled
with byte b0, the right with b1, stores in source order (column-major,
left byte then right byte). -/
def halfBlock4 (w : Nat) (m : Mem) (a : Int) (b0 b1 : Nat) : Mem :=
  let m := writeMem m a b0
  let m := writeMem m (a + 4) b1
  let m := writeMem m (a + (w : Int)) b0
  let m := writeMem m (a + (w : Int) + 4) b1
  let m := writeMem m (a + 2 * (w : Int)) b0
  let m := writeMem m (a + 2 * (w : Int) + 4) b1
  let m := writeMem m (a + 3 * (w : Int)) b0
  let m := writeMem m (a + 3 * (w : Int) + 4) b1
  let m := writeMem m (a + 1) b0
  let m := writeMem m (a + 5) b1
  let m := writeMem m (a + (w : Int) + 1) b0
  let m := writeMem m (a + (w : Int) + 5) b1
  let m := writeMem m (a + 2 * (w : Int) + 1) b0
  let m := writeMem m (a + 2 * (w : Int) + 5) b1
  let m := writeMem m (a + 3 * (w : Int) + 1) b0
  let m := writeMem m (a + 3 * (w : Int) + 5) b1
  let m := writeMem m (a + 2) b0
  let m := writeMem m (a + 6) b1
  let m := writeMem m (a + (w : Int) + 2) b0
  let m := writeMem m (a + (w : Int) + 6) b1
  let m := writeMem m (a + 2 * (w : Int) + 2) b0
  let m := writeMem m (a + 2 * (w : Int) + 6) b1
  let m := writeMem m (a + 3 * (w : Int) + 2) b0
  let m := writeMem m (a + 3 * (w : Int) + 6) b1
  let m := writeMem m (a + 3) b0
  let m := writeMem m (a + 7) b1
  let m := writeMem m (a + (w : Int) + 3) b0
  let m := writeMem m (a + (w : Int) + 7) b1
  let m := writeMem m (a + 2 * (w : Int) + 3) b0
  let m := writeMem m (a + 2 * (w : Int) + 7) b1
  let m := writeMem m (a + 3 * (w : Int) + 3) b0
  let m := writeMem m (a + 3 * (w : Int) + 7) b1
  m

/-- Decoder state: the in/out parameters of dispatchDecoder together
with the map cursor and diagnostic log of decodeFrame8.  frame is the
write cursor as an offset from vBackBuf1; pos indexes the payload
stream; remain is the int dataRemain; xb and yb are the loop counters
curXb and curYb; log records the con_printf diagnostics as tuples
(opcode, block column, block row, below-flag). -/
structure St where
  mem : Mem
  frame : Int
  pos : Nat
  remain : Int
  xb : Int
  yb : Int
  mapPos : Nat
  log : List (Nat × Int × Int × Bool)

/-- One iteration of the skip loop of case 0x6: advance two block
widths, bump the block column, wrap to the next block row when the
column count is reached; the Bool is true when the early return fires. -/
def skipStep (w h : Nat) (s : St) : St × Bool :=
  let s := { s with frame := s.frame + 16, xb := s.xb + 1 }
  if s.xb = ((w / 8 : Nat) : Int) then
    let s := { s with frame := s.frame + 7 * (w : Int), xb := 0, yb := s.yb + 1 }
    (s, s.yb = ((h / 8 : Nat) : Int))
  else
    (s, false)

/-- Source dispatchDecoder: execute one 4-bit opcode at the current
write cursor. -/
def dispatchDecoder (histOff : Int) (w h : Nat) (pay : Nat → Nat) (code : Nat) (s : St) : St :=
  match code with
  | 0 =>
    let m := copyFrame w s.mem s.frame (s.frame + histOff)
    { s with mem := m, frame := s.frame + 8 }
  | 1 =>
    { s with frame := s.frame + 8 }
  | 2 =>
    let xy := relFar (rdByte pay s.pos) 1
    let m := copyFrame w s.mem s.frame (s.frame + xy.1 + xy.2 * (w : Int))
    { s with mem := m, frame := s.frame + 8, pos := s.pos + 1, remain := s.remain - 1 }
  | 3 =>
    let xy := relFar (rdByte pay s.pos) (-1)
    let m := copyFrame w s.mem s.frame (s.frame + xy.1 + xy.2 * (w : Int))
    { s with mem := m, frame := s.frame + 8, pos := s.pos + 1, remain := s.remain - 1 }
  | 4 =>
    let xy := relClose (rdByte pay s.pos)
    let m := copyFrame w s.mem s.frame (s.frame + histOff + xy.1 + xy.2 * (w : Int))
    { s with mem := m, frame := s.frame + 8, pos := s.pos + 1, remain := s.remain - 1 }
  | 5 =>
    let x := toInt8 (rdByte pay s.pos)
    let y := toInt8 (rdByte pay (s.pos + 1))
    let m := copyFrame w s.mem s.frame (s.frame + histOff + x + y * (w : Int))
    { s with mem := m, frame := s.frame + 8, pos := s.pos + 2, remain := s.remain - 2 }
  | 6 =>
    let r1 := skipStep w h s
    if r1.2 then r1.1 else (skipStep w h r1.1).1
  | 7 =>
    let p0 := rdByte pay s.pos
    let p1 := rdByte pay (s.pos + 1)
    if p0 ≤ p1 then
      let m := patternRow2Pixels s.mem s.frame (rdByte pay (s.pos + 2)) p0 p1
      let m := patternRow2Pixels m (s.frame + (w : Int)) (rdByte pay (s.pos + 3)) p0 p1
      let m := patternRow2Pixels m (s.frame + 2 * (w : Int)) (rdByte pay (s.pos + 4)) p0 p1
      let m := patternRow2Pixels m (s.frame + 3 * (w : Int)) (rdByte pay (s.pos + 5)) p0 p1
      let m := patternRow2Pixels m (s.frame + 4 * (w : Int)) (rdByte pay (s.pos + 6)) p0 p1
      let m := patternRow2Pixels m (s.frame + 5 * (w : Int)) (rdByte pay (s.pos + 7)) p0 p1
      let m := patternRow2Pixels m (s.frame + 6 * (w : Int)) (rdByte pay (s.pos + 8)) p0 p1
      let m := patternRow2Pixels m (s.frame + 7 * (w : Int)) (rdByte pay (s.pos + 9)) p0 p1
      { s with mem := m, frame := s.frame + 8 * (w : Int) - (8 * (w : Int) - 8),
               pos := s.pos + 10 }
    else
      let m := patternRow2Pixels2 w s.mem s.frame (rdByte pay (s.pos + 2) % 16) p0 p1
      let m := patternRow2Pixels2 w m (s.frame + 2 * (w : Int)) (rdByte pay (s.pos + 2) / 16) p0 p1
      let m := patternRow2Pixels2 w m (s.frame + 4 * (w : Int)) (rdByte pay (s.pos + 3) % 16) p0 p1
      let m := patternRow2Pixels2 w m (s.frame + 6 * (w : Int)) (rdByte pay (s.pos + 3) / 16) p0 p1
      { s with mem := m, frame := s.frame + 8 * (w : Int) - (8 * (w : Int) - 8),
               pos := s.pos + 4 }
  | 8 =>
    if rdByte pay s.pos ≤ rdByte pay (s.pos + 1) then
      let f0 := s.frame
      let m := patternQuadrant2Pixels w s.mem f0
        (rdByte pay (s.pos + 2)) (rdByte pay (s.pos + 3))
        (rdByte pay s.pos) (rdByte pay (s.pos + 1))
      let f1 := f0 + 4 * (w : Int)
      let m := patternQuadrant2Pixels w m f1
        (rdByte pay (s.pos + 6)) (rdByte pay (s.pos + 7))
        (rdByte pay (s.pos + 4)) (rdByte pay (s.pos + 5))
      let f2 := f1 + (4 - 4 * (w : Int))
      let m := patternQuadrant2Pixels w m f2
        (rdByte pay (s.pos + 10)) (rdByte pay (s.pos + 11))
        (rdByte pay (s.pos + 8)) (rdByte pay (s.pos + 9))
      let f3 := f2 + 4 * (w : Int)
      let m := patternQuadrant2Pixels w m f3
        (rdByte pay (s.pos + 14)) (rdByte pay (s.pos + 15))
        (rdByte pay (s.pos + 12)) (rdByte pay (s.pos + 13))
      let f4 := f3 + (4 - 4 * (w : Int))
      { s with mem := m, frame := f4, pos := s.pos + 16 }
    else if rdByte pay (s.pos + 6) ≤ rdByte pay (s.pos + 7) then
      let f0 := s.frame
      let m := patternQuadrant2Pixels w s.mem f0
        (rdByte pay (s.pos + 2)) (rdByte pay (s.pos + 3))
        (rdByte pay s.pos) (rdByte pay (s.pos + 1))
      let f1 := f0 + 4 * (w : Int)
      let m := patternQuadrant2Pixels w m f1
        (rdByte pay (s.pos + 4)) (rdByte pay (s.pos + 5))
        (rdByte pay s.pos) (rdByte pay (s.pos + 1))
      let f2 := f1 - (4 * (w : Int) - 4)
      let m := patternQuadrant2Pixels w m f2
        (rdByte pay (s.pos + 8)) (rdByte pay (s.pos + 9))
        (rdByte pay (s.pos + 6)) (rdByte pay (s.pos + 7))
      let f3 := f2 + 4 * (w : Int)
      let m := patternQuadrant2Pixels w m f3
        (rdByte pay (s.pos + 10)) (rdByte pay (s.pos + 11))
        (rdByte pay (s.pos + 6)) (rdByte pay (s.pos + 7))
      let f4 := f3 - (4 * (w : Int) - 4)
      { s with mem := m, frame := f4, pos := s.pos + 12 }
    else
      let m := patternRow2Pixels s.mem s.frame (rdByte pay (s.pos + 2))
        (rdByte pay s.pos) (rdByte pay (s.pos + 1))
      let m := patternRow2Pixels m (s.frame + (w : Int)) (rdByte pay (s.pos + 3))
        (rdByte pay s.pos) (rdByte pay (s.pos + 1))
      let m := patternRow2Pixels m (s.frame + 2 * (w : Int)) (rdByte pay (s.pos + 4))
        (rdByte pay s.pos) (rdByte pay (s.pos + 1))
      let m := patternRow2Pixels m (s.frame + 3 * (w : Int)) (rdByte pay (s.pos + 5))
        (rdByte pay s.pos) (rdByte pay (s.pos + 1))
      let m := patternRow2Pixels m (s.frame + 4 * (w : Int)) (rdByte pay (s.pos + 8))
        (rdByte pay (s.pos + 6)) (rdByte pay (s.pos + 7))
      let m := patternRow2Pixels m (s.frame + 5 * (w : Int)) (rdByte pay (s.pos + 9))
        (rdByte pay (s.pos + 6)) (rdByte pay (s.pos + 7))
      let m := patternRow2Pixels m (s.frame + 6 * (w : Int)) (rdByte pay (s.pos + 10))
        (rdByte pay (s.pos + 6)) (rdByte pay (s.pos + 7))
      let m := patternRow2Pixels m (s.frame + 7 * (w : Int)) (rdByte pay (s.pos + 11))
        (rdByte pay (s.pos + 6)) (rdByte pay (s.pos + 7))
      { s with mem := m, frame := s.frame + 8 * (w : Int) - (8 * (w : Int) - 8),
               pos := s.pos + 12 }
  | 9 =>
    if rdByte pay s.pos ≤ rdByte pay (s.pos + 1) then
      if rdByte pay (s.pos + 2) ≤ rdByte pay (s.pos + 3) then
        let p0 := rdByte pay s.pos
        let p1 := rdByte pay (s.pos + 1)
        let p2 := rdByte pay (s.pos + 2)
        let p3 := rdByte pay (s.pos + 3)
        let m := patternRow4Pixels s.mem s.frame
          (rdByte pay (s.pos + 4)) (rdByte pay (s.pos + 5)) p0 p1 p2 p3
        let m := patternRow4Pixels m (s.frame + (w : Int))
          (rdByte pay (s.pos + 6)) (rdByte pay (s.pos + 7)) p0 p1 p2 p3
        let m := patternRow4Pixels m (s.frame + 2 * (w : Int))
          (rdByte pay (s.pos + 8)) (rdByte pay (s.pos + 9)) p0 p1 p2 p3
        let m := patternRow4Pixels m (s.frame + 3 * (w : Int))
          (rdByte pay (s.pos + 10)) (rdByte pay (s.pos + 11)) p0 p1 p2 p3
        let m := patternRow4Pixels m (s.frame + 4 * (w : Int))
          (rdByte pay (s.pos + 12)) (rdByte pay (s.pos + 13)) p0 p1 p2 p3
        let m := patternRow4Pixels m (s.frame + 5 * (w : Int))
          (rdByte pay (s.pos + 14)) (rdByte pay (s.pos + 15)) p0 p1 p2 p3
        let m := patternRow4Pixels m (s.frame + 6 * (w : Int))
          (rdByte pay (s.pos + 16)) (rdByte pay (s.pos + 17)) p0 p1 p2 p3
        let m := patternRow4Pixels m (s.frame + 7 * (w : Int))
          (rdByte pay (s.pos + 18)) (rdByte pay (s.pos + 19)) p0 p1 p2 p3
        { s with mem := m, frame := s.frame + 8 * (w : Int) - (8 * (w : Int) - 8),
                 pos := s.pos + 20 }
      else
        let p0 := rdByte pay s.pos
        let p1 := rdByte pay (s.pos + 1)
        let p2 := rdByte pay (s.pos + 2)
        let p3 := rdByte pay (s.pos + 3)
        let m := patternRow4Pixels2 w s.mem s.frame (rdByte pay (s.pos + 4)) p0 p1 p2 p3
        let m := patternRow4Pixels2 w m (s.frame + 2 * (w : Int)) (rdByte pay (s.pos + 5)) p0 p1 p2 p3
        let m := patternRow4Pixels2 w m (s.frame + 4 * (w : Int)) (rdByte pay (s.pos + 6)) p0 p1 p2 p3
        let m := patternRow4Pixels2 w m (s.frame + 6 * (w : Int)) (rdByte pay (s.pos + 7)) p0 p1 p2 p3
        { s with mem := m, frame := s.frame + 6 * (w : Int) - (6 * (w : Int) - 8),
                 pos := s.pos + 8 }
    else
      if rdByte pay (s.pos + 2) ≤ rdByte pay (s.pos + 3) then
        let p0 := rdByte pay s.pos
        let p1 := rdByte pay (s.pos + 1)
        let p2 := rdByte pay (s.pos + 2)
        let p3 := rdByte pay (s.pos + 3)
        let m := patternRow4Pixels2x1 s.mem s.frame (rdByte pay (s.pos + 4)) p0 p1 p2 p3
        let m := patternRow4Pixels2x1 m (s.frame + (w : Int)) (rdByte pay (s.pos + 5)) p0 p1 p2 p3
        let m := patternRow4Pixels2x1 m (s.frame + 2 * (w : Int)) (rdByte pay (s.pos + 6)) p0 p1 p2 p3
        let m := patternRow4Pixels2x1 m (s.frame + 3 * (w : Int)) (rdByte pay (s.pos + 7)) p0 p1 p2 p3
        let m := patternRow4Pixels2x1 m (s.frame + 4 * (w : Int)) (rdByte pay (s.pos + 8)) p0 p1 p2 p3
        let m := patternRow4Pixels2x1 m (s.frame + 5 * (w : Int)) (rdByte pay (s.pos + 9)) p0 p1 p2 p3
        let m := patternRow4Pixels2x1 m (s.frame + 6 * (w : Int)) (rdByte pay (s.pos + 10)) p0 p1 p2 p3
        let m := patternRow4Pixels2x1 m (s.frame + 7 * (w : Int)) (rdByte pay (s.pos + 11)) p0 p1 p2 p3
        { s with mem := m, frame := s.frame + 8 * (w : Int) - (8 * (w : Int) - 8),
                 pos := s.pos + 12 }
      else
        let p0 := rdByte pay s.pos
        let p1 := rdByte pay (s.pos + 1)
        let p2 := rdByte pay (s.pos + 2)
        let p3 := rdByte pay (s.pos + 3)
        let m := patternRow4Pixels s.mem s.frame
          (rdByte pay (s.pos + 4)) (rdByte pay (s.pos + 5)) p0 p1 p2 p3
        let m := patternRow4Pixels m (s.frame + (w : Int))
          (rdByte pay (s.pos + 4)) (rdByte pay (s.pos + 5)) p0 p1 p2 p3
        let m := patternRow4Pixels m (s.frame + 2 * (w : Int))
          (rdByte pay (s.pos + 6)) (rdByte pay (s.pos + 7)) p0 p1 p2 p3
        let m := patternRow4Pixels m (s.frame + 3 * (w : Int))
          (rdByte pay (s.pos + 6)) (rdByte pay (s.pos + 7)) p0 p1 p2 p3
        let m := patternRow4Pixels m (s.frame + 4 * (w : Int))
          (rdByte pay (s.pos + 8)) (rdByte pay (s.pos + 9)) p0 p1 p2 p3
        let m := patternRow4Pixels m (s.frame + 5 * (w : Int))
          (rdByte pay (s.pos + 8)) (rdByte pay (s.pos + 9)) p0 p1 p2 p3
        let m := patternRow4Pixels m (s.frame + 6 * (w : Int))
          (rdByte pay (s.pos + 10)) (rdByte pay (s.pos + 11)) p0 p1 p2 p3
        let m := patternRow4Pixels m (s.frame + 7 * (w : Int))
          (rdByte pay (s.pos + 10)) (rdByte pay (s.pos + 11)) p0 p1 p2 p3
        { s with mem := m, frame := s.frame + 8 * (w : Int) - (8 * (w : Int) - 8),
                 pos := s.pos + 12 }
  | 10 =>
    if rdByte pay s.pos ≤ rdByte pay (s.pos + 1) then
      let f0 := s.frame
      let m := patternQuadrant4Pixels w s.mem f0
        (rdByte pay (s.pos + 4)) (rdByte pay (s.pos + 5)) (rdByte pay (s.pos + 6)) (rdByte pay (s.pos + 7))
        (rdByte pay s.pos) (rdByte pay (s.pos + 1)) (rdByte pay (s.pos + 2)) (rdByte pay (s.pos + 3))
      let f1 := f0 + 4 * (w : Int)
      let m := patternQuadrant4Pixels w m f1
        (rdByte pay (s.pos + 12)) (rdByte pay (s.pos + 13)) (rdByte pay (s.pos + 14)) (rdByte pay (s.pos + 15))
        (rdByte pay (s.pos + 8)) (rdByte pay (s.pos + 9)) (rdByte pay (s.pos + 10)) (rdByte pay (s.pos + 11))
      let f2 := f1 - (4 * (w : Int) - 4)
      let m := patternQuadrant4Pixels w m f2
        (rdByte pay (s.pos + 20)) (rdByte pay (s.pos + 21)) (rdByte pay (s.pos + 22)) (rdByte pay (s.pos + 23))
        (rdByte pay (s.pos + 16)) (rdByte pay (s.pos + 17)) (rdByte pay (s.pos + 18)) (rdByte pay (s.pos + 19))
      let f3 := f2 + 4 * (w : Int)
      let m := patternQuadrant4Pixels w m f3
        (rdByte pay (s.pos + 28)) (rdByte pay (s.pos + 29)) (rdByte pay (s.pos + 30)) (rdByte pay (s.pos + 31))
        (rdByte pay (s.pos + 24)) (rdByte pay (s.pos + 25)) (rdByte pay (s.pos + 26)) (rdByte pay (s.pos + 27))
      let f4 := f3 - (4 * (w : Int) - 4)
      { s with mem := m, frame := f4, pos := s.pos + 32 }
    else if rdByte pay (s.pos + 12) ≤ rdByte pay (s.pos + 13) then
      let f0 := s.frame
      let m := patternQuadrant4Pixels w s.mem f0
        (rdByte pay (s.pos + 4)) (rdByte pay (s.pos + 5)) (rdByte pay (s.pos + 6)) (rdByte pay (s.pos + 7))
        (rdByte pay s.pos) (rdByte pay (s.pos + 1)) (rdByte pay (s.pos + 2)) (rdByte pay (s.pos + 3))
      let f1 := f0 + 4 * (w : Int)
      let m := patternQuadrant4Pixels w m f1
        (rdByte pay (s.pos + 8)) (rdByte pay (s.pos + 9)) (rdByte pay (s.pos + 10)) (rdByte pay (s.pos + 11))
        (rdByte pay s.pos) (rdByte pay (s.pos + 1)) (rdByte pay (s.pos + 2)) (rdByte pay (s.pos + 3))
      let f2 := f1 - (4 * (w : Int) - 4)
      let m := patternQuadrant4Pixels w m f2
        (rdByte pay (s.pos + 16)) (rdByte pay (s.pos + 17)) (rdByte pay (s.pos + 18)) (rdByte pay (s.pos + 19))
        (rdByte pay (s.pos + 12)) (rdByte pay (s.pos + 13)) (rdByte pay (s.pos + 14)) (rdByte pay (s.pos + 15))
      let f3 := f2 + 4 * (w : Int)
      let m := patternQuadrant4Pixels w m f3
        (rdByte pay (s.pos + 20)) (rdByte pay (s.pos + 21)) (rdByte pay (s.pos + 22)) (rdByte pay (s.pos + 23))
        (rdByte pay (s.pos + 12)) (rdByte pay (s.pos + 13)) (rdByte pay (s.pos + 14)) (rdByte pay (s.pos + 15))
      let f4 := f3 - (4 * (w : Int) - 4)
      { s with mem := m, frame := f4, pos := s.pos + 24 }
    else
      let m := patternRow4Pixels s.mem s.frame
        (rdByte pay (s.pos + 4)) (rdByte pay (s.pos + 5))
        (rdByte pay s.pos) (rdByte pay (s.pos + 1)) (rdByte pay (s.pos + 2)) (rdByte pay (s.pos + 3))
      let m := patternRow4Pixels m (s.frame + (w : Int))
        (rdByte pay (s.pos + 6)) (rdByte pay (s.pos + 7))
        (rdByte pay s.pos) (rdByte pay (s.pos + 1)) (rdByte pay (s.pos + 2)) (rdByte pay (s.pos + 3))
      let m := patternRow4Pixels m (s.frame + 2 * (w : Int))
        (rdByte pay (s.pos + 8)) (rdByte pay (s.pos + 9))
        (rdByte pay s.pos) (rdByte pay (s.pos + 1)) (rdByte pay (s.pos + 2)) (rdByte pay (s.pos + 3))
      let m := patternRow4Pixels m (s.frame + 3 * (w : Int))
        (rdByte pay (s.pos + 10)) (rdByte pay (s.pos + 11))
        (rdByte pay s.pos) (rdByte pay (s.pos + 1)) (rdByte pay (s.pos + 2)) (rdByte pay (s.pos + 3))
      let m := patternRow4Pixels m (s.frame + 4 * (w : Int))
        (rdByte pay (s.pos + 16)) (rdByte pay (s.pos + 17))
        (rdByte pay (s.pos + 12)) (rdByte pay (s.pos + 13)) (rdByte pay (s.pos + 14)) (rdByte pay (s.pos + 15))
      let m := patternRow4Pixels m (s.frame + 5 * (w : Int))
        (rdByte pay (s.pos + 18)) (rdByte pay (s.pos + 19))
        (rdByte pay (s.pos + 12)) (rdByte pay (s.pos + 13)) (rdByte pay (s.pos + 14)) (rdByte pay (s.pos + 15))
      let m := patternRow4Pixels m (s.frame + 6 * (w : Int))
        (rdByte pay (s.pos + 20)) (rdByte pay (s.pos + 21))
        (rdByte pay (s.pos + 12)) (rdByte pay (s.pos + 13)) (rdByte pay (s.pos + 14)) (rdByte pay (s.pos + 15))
      let m := patternRow4Pixels m (s.frame + 7 * (w : Int))
        (rdByte pay (s.pos + 22)) (rdByte pay (s.pos + 23))
        (rdByte pay (s.pos + 12)) (rdByte pay (s.pos + 13)) (rdByte pay (s.pos + 14)) (rdByte pay (s.pos + 15))
      { s with mem := m, frame := s.frame + 8 * (w : Int) - (8 * (w : Int) - 8),
               pos := s.pos + 24 }
  | 11 =>
    let m := writeRow8 s.mem s.frame (fun c => rdByte pay (s.pos + c))
    let m := writeRow8 m (s.frame + (w : Int)) (fun c => rdByte pay (s.pos + 8 + c))
    let m := writeRow8 m (s.frame + 2 * (w : Int)) (fun c => rdByte pay (s.pos + 16 + c))
    let m := writeRow8 m (s.frame + 3 * (w : Int)) (fun c => rdByte pay (s.pos + 24 + c))
    let m := writeRow8 m (s.frame + 4 * (w : Int)) (fun c => rdByte pay (s.pos + 32 + c))
    let m := writeRow8 m (s.frame + 5 * (w : Int)) (fun c => rdByte pay (s.pos + 40 + c))
    let m := writeRow8 m (s.frame + 6 * (w : Int)) (fun c => rdByte pay (s.pos + 48 + c))
    let m := writeRow8 m (s.frame + 7 * (w : Int)) (fun c => rdByte pay (s.pos + 56 + c))
    { s with mem := m, frame := s.frame + 8 * (w : Int) - (8 * (w : Int) - 8),
             pos := s.pos + 64, remain := s.remain - 64 }
  | 12 =>
    let m := writeRow8 s.mem s.frame (fun c => rdByte pay (s.pos + c / 2))
    let m := writeRow8 m (s.frame + (w : Int)) (fun c => rdByte pay (s.pos + c / 2))
    let m := writeRow8 m (s.frame + 2 * (w : Int)) (fun c => rdByte pay (s.pos + 4 + c / 2))
    let m := writeRow8 m (s.frame + 3 * (w : Int)) (fun c => rdByte pay (s.pos + 4 + c / 2))
    let m := writeRow8 m (s.frame + 4 * (w : Int)) (fun c => rdByte pay (s.pos + 8 + c / 2))
    let m := writeRow8 m (s.frame + 5 * (w : Int)) (fun c => rdByte pay (s.pos + 8 + c / 2))
    let m := writeRow8 m (s.frame + 6 * (w : Int)) (fun c => rdByte pay (s.pos + 12 + c / 2))
    let m := writeRow8 m (s.frame + 7 * (w : Int)) (fun c => rdByte pay (s.pos + 12 + c / 2))
    { s with mem := m, frame := s.frame + 8 * (w : Int) - (8 * (w : Int) - 8),
             pos := s.pos + 16, remain := s.remain - 16 }
  | 13 =>
    let m := halfBlock4 w s.mem s.frame (rdByte pay s.pos) (rdByte pay (s.pos + 1))
    let m := halfBlock4 w m (s.frame + 4 * (w : Int)) (rdByte pay (s.pos + 2)) (rdByte pay (s.pos + 3))
    { s with mem := m, frame := s.frame + 8 * (w : Int) - (8 * (w : Int) - 8),
             pos := s.pos + 4, remain := s.remain - 4 }
  | 14 =>
    let pel := rdByte pay s.pos
    let m := writeRow8 s.mem s.frame (fun _ => pel)
    let m := writeRow8 m (s.frame + (w : Int)) (fun _ => pel)
    let m := writeRow8 m (s.frame + 2 * (w : Int)) (fun _ => pel)
    let m := writeRow8 m (s.frame + 3 * (w : Int)) (fun _ => pel)
    let m := writeRow8 m (s.frame + 4 * (w : Int)) (fun _ => pel)
    let m := writeRow8 m (s.frame + 5 * (w : Int)) (fun _ => pel)
    let m := writeRow8 m (s.frame + 6 * (w : Int)) (fun _ => pel)
    let m := writeRow8 m (s.frame + 7 * (w : Int)) (fun _ => pel)
    { s with mem := m, frame := s.frame + 8 * (w : Int) - (8 * (w : Int) - 8),
             pos := s.pos + 1, remain := s.remain - 1 }
  | 15 =>
    let m := writeRow8 s.mem s.frame (fun c => rdByte pay (s.pos + c % 2))
    let m := writeRow8 m (s.frame + (w : Int)) (fun c => rdByte pay (s.pos + (1 + c) % 2))
    let m := writeRow8 m (s.frame + 2 * (w : Int)) (fun c => rdByte pay (s.pos + (2 + c) % 2))
    let m := writeRow8 m (s.frame + 3 * (w : Int)) (fun c => rdByte pay (s.pos + (3 + c) % 2))
    let m := writeRow8 m (s.frame + 4 * (w : Int)) (fun c => rdByte pay (s.pos + (4 + c) % 2))
    let m := writeRow8 m (s.frame + 5 * (w : Int)) (fun c => rdByte pay (s.pos + (5 + c) % 2))
    let m := writeRow8 m (s.frame + 6 * (w : Int)) (fun c => rdByte pay (s.pos + (6 + c) % 2))
    let m := writeRow8 m (s.frame + 7 * (w : Int)) (fun c => rdByte pay (s.pos + (7 + c) % 2))
    { s with mem := m, frame := s.frame + 8 * (w : Int) - (8 * (w : Int) - 8),
             pos := s.pos + 2, remain := s.remain - 2 }
  | _ => s

/-- Bounds check performed by decodeFrame8 after each dispatch: when the
write cursor has left [vBackBuf1, vBackBuf1 + width*height) a critical
diagnostic carrying the opcode and the block coordinates is appended to
the log; the decode state itself is untouched. -/
def checkBounds (w h : Nat) (op : Nat) (s : St) : St :=
  if s.frame < 0 then
    { s with log := s.log ++ [(op, s.xb, s.yb, true)] }
  else if ((w * h : Nat) : Int) ≤ s.frame then
    { s with log := s.log ++ [(op, s.xb, s.yb, false)] }
  else s

/-- Body of the inner loop of decodeFrame8: read one map byte, dispatch
its low nibble then its high nibble, and bounds-check after each
dispatch.  The source advances the map span at the end of the loop
body; the byte is read before any dispatch, so advancing the map cursor
directly after the read is observationally identical. -/
def pairStep (histOff : Int) (w h : Nat) (pay mp : Nat → Nat) (s : St) : St :=
  let b := rdByte mp s.mapPos
  let s := { s with mapPos := s.mapPos + 1 }
  let s := dispatchDecoder histOff w h pay (b % 16) s
  let s := checkBounds w h (b % 16) s
  let s := dispatchDecoder histOff w h pay (b / 16) s
  checkBounds w h (b / 16) s

/-- Inner for-loop of decodeFrame8 (over i = curXb, bound xb/2), as a
fuel-indexed recursion: opcode 0x6 mutates the loop counter, so the
loop has no structural measure of its own. -/
def innerLoop (histOff : Int) (w h : Nat) (pay mp : Nat → Nat) : Nat → St → St
  | 0, s => s
  | fuel + 1, s =>
    if s.xb < ((w / 8 / 2 : Nat) : Int) then
      let t := pairStep histOff w h pay mp s
      innerLoop histOff w h pay mp fuel { t with xb := t.xb + 1 }
    else s

/-- Outer for-loop of decodeFrame8 (over j = curYb, bound yb): run one
block row, then jump the cursor over the remaining 7 pixel rows. -/
def outerLoop (histOff : Int) (w h : Nat) (pay mp : Nat → Nat) : Nat → St → St
  | 0, s => s
  | fuel + 1, s =>
    if s.yb < ((h / 8 : Nat) : Int) then
      let t := innerLoop histOff w h pay mp w { s with xb := 0 }
      let t := { t with frame := t.frame + 7 * (w : Int) }
      outerLoop histOff w h pay mp fuel { t with yb := t.yb + 1 }
    else s

/-- Source decodeFrame8: decode one full frame.  The write cursor starts
at vBackBuf1 (offset 0), the payload and map cursors at 0. -/
def decodeFrame8 (histOff : Int) (w h : Nat) (mp pay : Nat → Nat)
    (mem : Mem) (remain : Int) : St :=
  outerLoop histOff w h pay mp h
    { mem := mem, frame := 0, pos := 0, remain := remain,
      xb := 0, yb := 0, mapPos := 0, log := [] }

/-- Variant of pairStep with the bounds diagnostics removed; used to
state that the diagnostics never alter the decode itself. -/
def pairStepND (histOff : Int) (w h : Nat) (pay mp : Nat → Nat) (s : St) : St :=
  let b := rdByte mp s.mapPos
  let s := { s with mapPos := s.mapPos + 1 }
  let s := dispatchDecoder histOff w h pay (b % 16) s
  dispatchDecoder histOff w h pay (b / 16) s

/-- Inner loop of the diagnostics-free decoder variant. -/
def innerLoopND (histOff : Int) (w h : Nat) (pay mp : Nat → Nat) : Nat → St → St
  | 0, s => s
  | fuel + 1, s =>
    if s.xb < ((w / 8 / 2 : Nat) : Int) then
      let t := pairStepND histOff w h pay mp s
      innerLoopND histOff w h pay mp fuel { t with xb := t.xb + 1 }
    else s

/-- Outer loop of the diagnostics-free decoder variant. -/
def outerLoopND (histOff : Int) (w h : Nat) (pay mp : Nat → Nat) : Nat → St → St
  | 0, s => s
  | fuel + 1, s =>
    if s.yb < ((h / 8 : Nat) : Int) then
      let t := innerLoopND histOff w h pay mp w { s with xb := 0 }
      let t := { t with frame := t.frame + 7 * (w : Int) }
      outerLoopND histOff w h pay mp fuel { t with yb := t.yb + 1 }
    else s

/-- Frame decode with the bounds diagnostics removed. -/
def decodeFrame8ND (histOff : Int) (w h : Nat) (mp pay : Nat → Nat)
    (mem : Mem) (remain : Int) : St :=
  outerLoopND histOff w h pay mp h
    { mem := mem, frame := 0, pos := 0, remain := remain,
      xb := 0, yb := 0, mapPos := 0, log := [] }

/-- Modelled from the spec: the block-grid walk as described in section
4.1, with no feedback from the dispatcher into the loop counters.  The
inner walk runs for an explicit count of map bytes. -/
def innerSpec (histOff : Int) (w h : Nat) (pay mp : Nat → Nat) : Nat → St → St
  | 0, s => s
  | n + 1, s =>
    let t := pairStep histOff w h pay mp s
    innerSpec histOff w h pay mp n { t with xb := t.xb + 1 }

/-- Modelled from the spec: for each block row, walk width/16 map bytes
and then advance the cursor by 7*width. -/
def outerSpec (histOff : Int) (w h : Nat) (pay mp : Nat → Nat) : Nat → St → St
  | 0, s => s
  | n + 1, s =>
    let t := innerSpec histOff w h pay mp (w / 8 / 2) { s with xb := 0 }
    let t := { t with frame := t.frame + 7 * (w : Int) }
    outerSpec histOff w h pay mp n { t with yb := t.yb + 1 }

/-- Modelled from the spec: decode a frame as height/8 block rows of
width/16 map bytes each, dispatching the low nibble then the high
nibble of every map byte in stream order. -/
def decodeFrameSpec (histOff : Int) (w h : Nat) (mp pay : Nat → Nat)
    (mem : Mem) (remain : Int) : St :=
  outerSpec histOff w h pay mp (h / 8)
    { mem := mem, frame := 0, pos := 0, remain := remain,
      xb := 0, yb := 0, mapPos := 0, log := [] }

/-- Forget the diagnostic log of a state. -/
def eraseLog (s : St) : St := { s with log := [] }

theorem writeMem_hit (m : Mem) (a : Int) (v : Nat) (x : Int) (h : x = a) :
    writeMem m a v x = v := by
  simp [writeMem, h]

theorem writeMem_miss (m : Mem) (a : Int) (v : Nat) (x : Int) (h : ¬ x = a) :
    writeMem m a v x = m x := by
  simp [writeMem, h]

theorem writeRow8_at (m : Mem) (a : Int) (v : Nat → Nat) (x : Int) (k : Nat)
    (hk : k < 8) (hx : x = a + (k : Int)) : writeRow8 m a v x = v k := by
  subst hx
  interval_cases k <;>
    (simp only [writeRow8, writeMem]
     push_cast
     split_ifs <;> first | rfl | omega)

theorem writeRow8_out (m : Mem) (a : Int) (v : Nat → Nat) (x : Int)
    (hx : x < a ∨ a + 8 ≤ x) : writeRow8 m a v x = m x := by
  simp only [writeRow8]
  repeat rw [writeMem_miss _ _ _ _ (by omega)]

theorem writeRow4_at (m : Mem) (a : Int) (v : Nat → Nat) (x : Int) (k : Nat)
    (hk : k < 4) (hx : x = a + (k : Int)) : writeRow4 m a v x = v k := by
  subst hx
  interval_cases k <;>
    (simp only [writeRow4, writeMem]
     push_cast
     split_ifs <;> first | rfl | omega)

theorem writeRow4_out (m : Mem) (a : Int) (v : Nat → Nat) (x : Int)
    (hx : x < a ∨ a + 4 ≤ x) : writeRow4 m a v x = m x := by
  simp only [writeRow4]
  repeat rw [writeMem_miss _ _ _ _ (by omega)]

theorem patternRow2Pixels2_read (w : Nat) (m : Mem) (a : Int) (pat p0 p1 : Nat)
    (x : Int) (r k : Nat) (h8 : 8 ≤ w) (hr : r < 2) (hk : k < 8)
    (hx : x = a + (r : Int) * (w : Int) + (k : Int)) :
    patternRow2Pixels2 w m a pat p0 p1 x =
      if Nat.testBit pat (k / 2) then p1 else p0 := by
  subst hx
  interval_cases r <;> interval_cases k <;>
    (simp only [patternRow2Pixels2, writeMem]
     push_cast
     norm_num
     all_goals try split_ifs
     all_goals first | rfl | omega)

theorem patternRow2Pixels2_out (w : Nat) (m : Mem) (a : Int) (pat p0 p1 : Nat)
    (x : Int) (h0 : x < a ∨ a + 8 ≤ x) (h1 : x < a + (w : Int) ∨ a + (w : Int) + 8 ≤ x) :
    patternRow2Pixels2 w m a pat p0 p1 x = m x := by
  simp only [patternRow2Pixels2]
  repeat rw [writeMem_miss _ _ _ _ (by omega)]

theorem patternRow4Pixels2_read (w : Nat) (m : Mem) (a : Int) (pat0 p0 p1 p2 p3 : Nat)
    (x : Int) (r k : Nat) (h8 : 8 ≤ w) (hr : r < 2) (hk : k < 8)
    (hx : x = a + (r : Int) * (w : Int) + (k : Int)) :
    patternRow4Pixels2 w m a pat0 p0 p1 p2 p3 x =
      pick4 p0 p1 p2 p3 (pat0 / 4 ^ (k / 2) % 4) := by
  subst hx
  interval_cases r <;> interval_cases k <;>
    (simp only [patternRow4Pixels2, writeMem]
     push_cast
     norm_num
     all_goals try split_ifs
     all_goals first | rfl | omega)

theorem patternRow4Pixels2_out (w : Nat) (m : Mem) (a : Int) (pat0 p0 p1 p2 p3 : Nat)
    (x : Int) (h0 : x < a ∨ a + 8 ≤ x) (h1 : x < a + (w : Int) ∨ a + (w : Int) + 8 ≤ x) :
    patternRow4Pixels2 w m a pat0 p0 p1 p2 p3 x = m x := by
  simp only [patternRow4Pixels2]
  repeat rw [writeMem_miss _ _ _ _ (by omega)]

theorem copyFrame_read (w : Nat) (m : Mem) (dest src : Int) (r c : Nat)
    (h8 : 8 ≤ w) (hds : dest + 8 ≤ src) (hr : r < 8) (hc : c < 8) :
    copyFrame w m dest src (dest + (r : Int) * (w : Int) + (c : Int)) =
      m (src + (r : Int) * (w : Int) + (c : Int)) := by
  interval_cases r
  · simp only [copyFrame, copyRow]
    iterate 7 rw [writeRow8_out _ _ _ _ (by push_cast; omega)]
    rw [writeRow8_at _ _ _ _ c hc (by push_cast; ring)]
    all_goals congr 1
    all_goals push_cast
    all_goals ring
  · simp only [copyFrame, copyRow]
    iterate 6 rw [writeRow8_out _ _ _ _ (by push_cast; omega)]
    rw [writeRow8_at _ _ _ _ c hc (by push_cast; ring)]
    iterate 1 rw [writeRow8_out _ _ _ _ (by push_cast; omega)]
    all_goals congr 1
    all_goals push_cast
    all_goals ring
  · simp only [copyFrame, copyRow]
    iterate 5 rw [writeRow8_out _ _ _ _ (by push_cast; omega)]
    rw [writeRow8_at _ _ _ _ c hc (by push_cast; ring)]
    iterate 2 rw [writeRow8_out _ _ _ _ (by push_cast; omega)]
    all_goals congr 1
    all_goals push_cast
    all_goals ring
  · simp only [copyFrame, copyRow]
    iterate 4 rw [writeRow8_out _ _ _ _ (by push_cast; omega)]
    rw [writeRow8_at _ _ _ _ c hc (by push_cast; ring)]
    iterate 3 rw [writeRow8_out _ _ _ _ (by push_cast; omega)]
    all_goals congr 1
    all_goals push_cast
    all_goals ring
  · simp only [copyFrame, copyRow]
    iterate 3 rw [writeRow8_out _ _ _ _ (by push_cast; omega)]
    rw [writeRow8_at _ _ _ _ c hc (by push_cast; ring)]
    iterate 4 rw [writeRow8_out _ _ _ _ (by push_cast; omega)]
    all_goals congr 1
    all_goals push_cast
    all_goals ring
  · simp only [copyFrame, copyRow]
    iterate 2 rw [writeRow8_out _ _ _ _ (by push_cast; omega)]
    rw [writeRow8_at _ _ _ _ c hc (by push_cast; ring)]
    iterate 5 rw [writeRow8_out _ _ _ _ (by push_cast; omega)]
    all_goals congr 1
    all_goals push_cast
    all_goals ring
  · simp only [copyFrame, copyRow]
    iterate 1 rw [writeRow8_out _ _ _ _ (by push_cast; omega)]
    rw [writeRow8_at _ _ _ _ c hc (by push_cast; ring)]
    iterate 6 rw [writeRow8_out _ _ _ _ (by push_cast; omega)]
    all_goals congr 1
    all_goals push_cast
    all_goals ring
  · simp only [copyFrame, copyRow]
    rw [writeRow8_at _ _ _ _ c hc (by push_cast; ring)]
    iterate 7 rw [writeRow8_out _ _ _ _ (by push_cast; omega)]
    all_goals congr 1
    all_goals push_cast
    all_goals ring

theorem skipStep_nowrap (w h : Nat) (s : St)
    (hx : ¬ s.xb + 1 = ((w / 8 : Nat) : Int)) :
    skipStep w h s = ({ s with frame := s.frame + 16, xb := s.xb + 1 }, false) := by
  simp only [skipStep]
  rw [if_neg (by exact hx)]

theorem skipStep_wrap (w h : Nat) (s : St)
    (hx : s.xb + 1 = ((w / 8 : Nat) : Int)) :
    skipStep w h s =
      ({ s with frame := s.frame + 16 + 7 * (w : Int), xb := 0, yb := s.yb + 1 },
        decide (s.yb + 1 = ((h / 8 : Nat) : Int))) := by
  simp only [skipStep]
  rw [if_pos (by exact hx)]

/-- C1 (amended).  Payload consumption and remaining-length accounting of
every opcode: opcodes 0x0, 0x1, 0x6 consume nothing; 0x2, 0x3, 0x4, 0xe
consume 1 byte, 0x5 and 0xf consume 2, 0xb consumes 64, 0xc consumes 16
and 0xd consumes 4, each decrementing payload_remaining by the same
amount; the pattern opcodes consume 10 or 4 bytes (0x7), 16 or 12 (0x8),
20, 8, 12 or 12 (0x9) and 32 or 24 (0xa) but leave payload_remaining
untouched. -/
theorem mve_c1_consumption (histOff : Int) (w h : Nat) (pay : Nat → Nat) (s : St) :
    ((dispatchDecoder histOff w h pay 0 s).pos = s.pos ∧
      (dispatchDecoder histOff w h pay 0 s).remain = s.remain) ∧
    ((dispatchDecoder histOff w h pay 1 s).pos = s.pos ∧
      (dispatchDecoder histOff w h pay 1 s).remain = s.remain) ∧
    ((dispatchDecoder histOff w h pay 2 s).pos = s.pos + 1 ∧
      (dispatchDecoder histOff w h pay 2 s).remain = s.remain - 1) ∧
    ((dispatchDecoder histOff w h pay 3 s).pos = s.pos + 1 ∧
      (dispatchDecoder histOff w h pay 3 s).remain = s.remain - 1) ∧
    ((dispatchDecoder histOff w h pay 4 s).pos = s.pos + 1 ∧
      (dispatchDecoder histOff w h pay 4 s).remain = s.remain - 1) ∧
    ((dispatchDecoder histOff w h pay 5 s).pos = s.pos + 2 ∧
      (dispatchDecoder histOff w h pay 5 s).remain = s.remain - 2) ∧
    ((dispatchDecoder histOff w h pay 6 s).pos = s.pos ∧
      (dispatchDecoder histOff w h pay 6 s).remain = s.remain) ∧
    ((dispatchDecoder histOff w h pay 7 s).pos =
        s.pos + (if rdByte pay s.pos ≤ rdByte pay (s.pos + 1) then 10 else 4) ∧
      (dispatchDecoder histOff w h pay 7 s).remain = s.remain) ∧
    ((dispatchDecoder histOff w h pay 8 s).pos =
        s.pos + (if rdByte pay s.pos ≤ rdByte pay (s.pos + 1) then 16 else 12) ∧
      (dispatchDecoder histOff w h pay 8 s).remain = s.remain) ∧
    ((dispatchDecoder histOff w h pay 9 s).pos =
        s.pos + (if rdByte pay s.pos ≤ rdByte pay (s.pos + 1) then
          (if rdByte pay (s.pos + 2) ≤ rdByte pay (s.pos + 3) then 20 else 8) else 12) ∧
      (dispatchDecoder histOff w h pay 9 s).remain = s.remain) ∧
    ((dispatchDecoder histOff w h pay 10 s).pos =
        s.pos + (if rdByte pay s.pos ≤ rdByte pay (s.pos + 1) then 32 else 24) ∧
      (dispatchDecoder histOff w h pay 10 s).remain = s.remain) ∧
    ((dispatchDecoder histOff w h pay 11 s).pos = s.pos + 64 ∧
      (dispatchDecoder histOff w h pay 11 s).remain = s.remain - 64) ∧
    ((dispatchDecoder histOff w h pay 12 s).pos = s.pos + 16 ∧
      (dispatchDecoder histOff w h pay 12 s).remain = s.remain - 16) ∧
    ((dispatchDecoder histOff w h pay 13 s).pos = s.pos + 4 ∧
      (dispatchDecoder histOff w h pay 13 s).remain = s.remain - 4) ∧
    ((dispatchDecoder histOff w h pay 14 s).pos = s.pos + 1 ∧
      (dispatchDecoder histOff w h pay 14 s).remain = s.remain - 1) ∧
    ((dispatchDecoder histOff w h pay 15 s).pos = s.pos + 2 ∧
      (dispatchDecoder histOff w h pay 15 s).remain = s.remain - 2) := by
  repeat' constructor
  all_goals simp only [dispatchDecoder, skipStep]
  all_goals try split_ifs
  all_goals rfl

/-- C1 counterexample.  Dispatching opcode 0x7 on a payload whose first
two bytes satisfy P0 <= P1 consumes 10 payload bytes but leaves
payload_remaining unchanged at 100, contradicting the claim that the
remaining-length counter decreases by the number of bytes consumed. -/
theorem mve_c1_counterexample :
    (dispatchDecoder 1000 16 16 (fun _ => 5) 7
      { mem := fun _ => 0, frame := 0, pos := 0, remain := 100,
        xb := 0, yb := 0, mapPos := 0, log := [] }).pos = 10 ∧
    (dispatchDecoder 1000 16 16 (fun _ => 5) 7
      { mem := fun _ => 0, frame := 0, pos := 0, remain := 100,
        xb := 0, yb := 0, mapPos := 0, log := [] }).remain ≠ 100 - 10 := by
  constructor <;> decide

/-- C2 (amended).  Every opcode other than 0x6 advances the write cursor
by exactly one 8x8 block (net +8 bytes) and leaves the block counters
untouched; opcode 0x6 performs two skip steps, each advancing the
cursor by 16 bytes (two blocks) and incrementing the block-column
counter once, wrapping to the next block row (adding the 7*width band
jump, resetting the column counter and incrementing the row counter)
when the column counter reaches width/8, and returning after the first
step when the row counter reaches height/8. -/
theorem mve_c2_advance (histOff : Int) (w h : Nat) (pay : Nat → Nat) (s : St) :
    (∀ op : Nat, op < 16 → op ≠ 6 →
      (dispatchDecoder histOff w h pay op s).frame = s.frame + 8 ∧
      (dispatchDecoder histOff w h pay op s).xb = s.xb ∧
      (dispatchDecoder histOff w h pay op s).yb = s.yb) ∧
    (s.xb + 1 ≠ ((w / 8 : Nat) : Int) → s.xb + 2 ≠ ((w / 8 : Nat) : Int) →
      (dispatchDecoder histOff w h pay 6 s).frame = s.frame + 32 ∧
      (dispatchDecoder histOff w h pay 6 s).xb = s.xb + 2 ∧
      (dispatchDecoder histOff w h pay 6 s).yb = s.yb) ∧
    (s.xb + 1 = ((w / 8 : Nat) : Int) → s.yb + 1 = ((h / 8 : Nat) : Int) →
      (dispatchDecoder histOff w h pay 6 s).frame = s.frame + 16 + 7 * (w : Int) ∧
      (dispatchDecoder histOff w h pay 6 s).xb = 0 ∧
      (dispatchDecoder histOff w h pay 6 s).yb = s.yb + 1) ∧
    (s.xb + 1 = ((w / 8 : Nat) : Int) → s.yb + 1 ≠ ((h / 8 : Nat) : Int) →
        (1 : Int) ≠ ((w / 8 : Nat) : Int) →
      (dispatchDecoder histOff w h pay 6 s).frame = s.frame + 32 + 7 * (w : Int) ∧
      (dispatchDecoder histOff w h pay 6 s).xb = 1 ∧
      (dispatchDecoder histOff w h pay 6 s).yb = s.yb + 1) ∧
    (s.xb + 1 ≠ ((w / 8 : Nat) : Int) → s.xb + 2 = ((w / 8 : Nat) : Int) →
      (dispatchDecoder histOff w h pay 6 s).frame = s.frame + 32 + 7 * (w : Int) ∧
      (dispatchDecoder histOff w h pay 6 s).xb = 0 ∧
      (dispatchDecoder histOff w h pay 6 s).yb = s.yb + 1) := by
  constructor
  · intro op h16 hne
    interval_cases op
    all_goals try exact absurd rfl hne
    all_goals simp only [dispatchDecoder]
    all_goals try split_ifs
    all_goals try simp
    all_goals omega
  · refine ⟨?_, ?_, ?_, ?_⟩
    · intro hA hB
      simp only [dispatchDecoder]
      rw [skipStep_nowrap w h s hA]
      rw [skipStep_nowrap w h _ (by show ¬ s.xb + 1 + 1 = ((w / 8 : Nat) : Int); omega)]
      simp
      all_goals omega
    · intro hA hB
      simp only [dispatchDecoder]
      rw [skipStep_wrap w h s hA]
      simp [hB]
      all_goals omega
    · intro hA hB hC
      simp only [dispatchDecoder]
      rw [skipStep_wrap w h s hA]
      simp only [hB, decide_False, Bool.false_eq_true, if_false]
      rw [skipStep_nowrap w h _ (by show ¬ (0 : Int) + 1 = ((w / 8 : Nat) : Int); omega)]
      simp
      all_goals omega
    · intro hA hB
      simp only [dispatchDecoder]
      rw [skipStep_nowrap w h s hA]
      simp
      rw [skipStep_wrap w h _ (by show s.xb + 1 + 1 = ((w / 8 : Nat) : Int); omega)]
      simp
      all_goals omega

/-- Offset decoded by the positive far mapping is always at least 8
bytes ahead of the write position. -/
theorem relFar_pos_offset (b w : Nat) (h8 : 8 ≤ w) :
    (8 : Int) ≤ (relFar b 1).1 + (relFar b 1).2 * (w : Int) := by
  simp only [relFar]
  split_ifs with hb
  · simp only [one_mul]
    have h1 : (0 : Int) ≤ ((b / 7 : Nat) : Int) * (w : Int) := by positivity
    have h2 : (0 : Int) ≤ ((b % 7 : Nat) : Int) := Int.natCast_nonneg _
    linarith
  · simp only [one_mul]
    have hy : (0 : Int) ≤ (((b - 56) / 29 : Nat) : Int) := Int.natCast_nonneg _
    have hw : (8 : Int) ≤ (w : Int) := by exact_mod_cast h8
    have h2 : (8 : Int) * 8 ≤ (8 + (((b - 56) / 29 : Nat) : Int)) * (w : Int) :=
      mul_le_mul (by linarith) hw (by norm_num) (by linarith)
    have h3 : (0 : Int) ≤ (((b - 56) % 29 : Nat) : Int) := Int.natCast_nonneg _
    linarith

/-- C7.  Opcode 0x2 consumes exactly one payload byte B and decrements
payload_remaining by one; B is decoded by the far mapping in the
positive direction (x = 8 + B mod 7, y = B div 7 when B < 56, else
x = -14 + (B-56) mod 29, y = 8 + (B-56) div 29); the 8x8 block written
at the current position is copied from the current buffer at the source
offset current_position + x + y*width; the cursor advances 8 bytes. -/
theorem mve_c7_opcode2 (histOff : Int) (w h : Nat) (pay : Nat → Nat) (s : St)
    (h8 : 8 ≤ w) :
    (dispatchDecoder histOff w h pay 2 s).pos = s.pos + 1 ∧
    (dispatchDecoder histOff w h pay 2 s).remain = s.remain - 1 ∧
    (dispatchDecoder histOff w h pay 2 s).frame = s.frame + 8 ∧
    relFar (rdByte pay s.pos) 1 =
      (if rdByte pay s.pos < 56 then
         (8 + ((rdByte pay s.pos % 7 : Nat) : Int), ((rdByte pay s.pos / 7 : Nat) : Int))
       else
         (-14 + (((rdByte pay s.pos - 56) % 29 : Nat) : Int),
          8 + (((rdByte pay s.pos - 56) / 29 : Nat) : Int))) ∧
    (∀ r c : Nat, r < 8 → c < 8 →
      (dispatchDecoder histOff w h pay 2 s).mem
          (s.frame + (r : Int) * (w : Int) + (c : Int)) =
        s.mem (s.frame + (relFar (rdByte pay s.pos) 1).1 +
          (relFar (rdByte pay s.pos) 1).2 * (w : Int) +
          (r : Int) * (w : Int) + (c : Int))) := by
  refine ⟨rfl, rfl, rfl, ?_, ?_⟩
  · simp only [relFar]
    split_ifs <;> simp
  · intro r c hr hc
    exact copyFrame_read w s.mem s.frame
      (s.frame + (relFar (rdByte pay s.pos) 1).1 +
        (relFar (rdByte pay s.pos) 1).2 * (w : Int)) r c h8
      (by have := relFar_pos_offset (rdByte pay s.pos) w h8; linarith) hr hc

/-- C7 witness: opcode 0x2 with offset byte 10 at width 16 copies from
current_position + 11 + 1*width; pixel (0,3) of the block therefore
receives the byte at offset 27 + 3 = 30 of the seeded buffer. -/
theorem mve_c7_opcode2_witness :
    (dispatchDecoder 1000 16 16 (fun _ => 10) 2
      { mem := fun x => x.toNat % 251, frame := 0, pos := 0, remain := 100,
        xb := 0, yb := 0, mapPos := 0, log := [] }).mem 3 = 30 := by
  have h := mve_c7_opcode2 1000 16 16 (fun _ => 10)
    { mem := fun x => x.toNat % 251, frame := 0, pos := 0, remain := 100,
      xb := 0, yb := 0, mapPos := 0, log := [] } (by norm_num)
  have h5 := h.2.2.2.2 0 3 (by norm_num) (by norm_num)
  exact h5.trans (by decide)

/-- C3 (amended).  A stream whose final opcode would write past the
buffer end is caught and logged, but only after the fact: the
out-of-bounds store has already happened.  With width 16, height 8 and
the single map byte 0xb6 (skip, then raw block), the skip opcode pushes
the cursor to offset 144, past the 128-byte destination region, both
dispatches log a diagnostic, and the raw-block opcode then writes the
first payload byte at offset 144, outside the destination region. -/
theorem mve_c3_boundary (pay : Nat → Nat) :
    (decodeFrame8 1000 16 8 (fun _ => 0xb6) pay (fun _ => 0) 100).log =
      [(6, 0, 1, false), (11, 0, 1, false)] ∧
    (decodeFrame8 1000 16 8 (fun _ => 0xb6) pay (fun _ => 0) 100).mem 144 =
      rdByte pay 0 := by
  exact ⟨rfl, rfl⟩

/-- C3 counterexample.  decodeFrame8 writes the byte 1 at offset 144,
which lies outside the width*height = 128 byte destination region whose
every byte started as 0: memory outside the destination region is
touched, contradicting the claim. -/
theorem mve_c3_counterexample :
    (decodeFrame8 1000 16 8 (fun _ => 0xb6) (fun _ => 1) (fun _ => 0) 100).mem 144 = 1 ∧
    (16 * 8 : Int) ≤ 144 := by
  exact ⟨by decide, by decide⟩

/-- C2 counterexample.  With width 32 (four block columns) and the skip
opcode dispatched at block column 0, the write cursor advances by 32
bytes, four blocks, not by the one or two blocks the claim allows. -/
theorem mve_c2_counterexample :
    (dispatchDecoder 1000 32 16 (fun _ => 1) 6
      { mem := fun _ => 0, frame := 0, pos := 0, remain := 100,
        xb := 0, yb := 0, mapPos := 0, log := [] }).frame = 32 ∧
    (32 : Int) ≠ 0 + 8 ∧ (32 : Int) ≠ 0 + 16 := by
  refine ⟨by decide, by decide, by decide⟩

/-- C2 witness: the general advance theorem applied to a concrete state,
giving +8 for opcode 0x5 and +32 for opcode 0x6 with no wrap. -/
theorem mve_c2_advance_witness :
    (dispatchDecoder 1000 32 16 (fun _ => 1) 5
      { mem := fun _ => 0, frame := 0, pos := 0, remain := 100,
        xb := 0, yb := 0, mapPos := 0, log := [] }).frame = 0 + 8 ∧
    (dispatchDecoder 1000 32 16 (fun _ => 1) 6
      { mem := fun _ => 0, frame := 0, pos := 0, remain := 100,
        xb := 0, yb := 0, mapPos := 0, log := [] }).frame = 0 + 32 := by
  have h := mve_c2_advance 1000 32 16 (fun _ => 1)
    { mem := fun _ => 0, frame := 0, pos := 0, remain := 100,
      xb := 0, yb := 0, mapPos := 0, log := [] }
  exact ⟨(h.1 5 (by norm_num) (by norm_num)).1,
    (h.2.1 (by norm_num) (by norm_num)).1⟩

/-- C5.  Opcode 0x7 reads two colors P0, P1.  If P0 <= P1 it consumes
8 further bytes, one per pixel row; bit c of the row byte selects P1
when set and P0 when clear, with the least significant bit the leftmost
pixel.  If P0 > P1 it consumes 2 further bytes, each holding two 4-bit
patterns; the low nibble controls the upper of the two row pairs that
byte covers, and each bit selects the color of a 2x2 pixel cell, least
significant bit leftmost. -/
theorem mve_c5_opcode7 (histOff : Int) (w h : Nat) (pay : Nat → Nat) (s : St)
    (h8 : 8 ≤ w) :
    (rdByte pay s.pos ≤ rdByte pay (s.pos + 1) →
      (dispatchDecoder histOff w h pay 7 s).pos = s.pos + 10 ∧
      (∀ r c : Nat, r < 8 → c < 8 →
        (dispatchDecoder histOff w h pay 7 s).mem
            (s.frame + (r : Int) * (w : Int) + (c : Int)) =
          if Nat.testBit (rdByte pay (s.pos + 2 + r)) c then rdByte pay (s.pos + 1)
          else rdByte pay s.pos)) ∧
    (rdByte pay (s.pos + 1) < rdByte pay s.pos →
      (dispatchDecoder histOff w h pay 7 s).pos = s.pos + 4 ∧
      (∀ r c : Nat, r < 8 → c < 8 →
        (dispatchDecoder histOff w h pay 7 s).mem
            (s.frame + (r : Int) * (w : Int) + (c : Int)) =
          if Nat.testBit
              (if r % 4 < 2 then rdByte pay (s.pos + 2 + r / 4) % 16
               else rdByte pay (s.pos + 2 + r / 4) / 16) (c / 2)
            then rdByte pay (s.pos + 1) else rdByte pay s.pos)) := by
  constructor
  · intro hle
    constructor
    · simp only [dispatchDecoder, if_pos hle]
    · intro r c hr hc
      simp only [dispatchDecoder, if_pos hle, patternRow2Pixels]
      interval_cases r
      · iterate 7 rw [writeRow8_out _ _ _ _ (by push_cast; omega)]
        rw [writeRow8_at _ _ _ _ c hc (by push_cast; ring)]
        all_goals norm_num
      · iterate 6 rw [writeRow8_out _ _ _ _ (by push_cast; omega)]
        rw [writeRow8_at _ _ _ _ c hc (by push_cast; ring)]
        all_goals norm_num
      · iterate 5 rw [writeRow8_out _ _ _ _ (by push_cast; omega)]
        rw [writeRow8_at _ _ _ _ c hc (by push_cast; ring)]
        all_goals norm_num
      · iterate 4 rw [writeRow8_out _ _ _ _ (by push_cast; omega)]
        rw [writeRow8_at _ _ _ _ c hc (by push_cast; ring)]
        all_goals norm_num
      · iterate 3 rw [writeRow8_out _ _ _ _ (by push_cast; omega)]
        rw [writeRow8_at _ _ _ _ c hc (by push_cast; ring)]
        all_goals norm_num
      · iterate 2 rw [writeRow8_out _ _ _ _ (by push_cast; omega)]
        rw [writeRow8_at _ _ _ _ c hc (by push_cast; ring)]
        all_goals norm_num
      · iterate 1 rw [writeRow8_out _ _ _ _ (by push_cast; omega)]
        rw [writeRow8_at _ _ _ _ c hc (by push_cast; ring)]
        all_goals norm_num
      · rw [writeRow8_at _ _ _ _ c hc (by push_cast; ring)]
        all_goals norm_num
  · intro hgt
    have hne : ¬ rdByte pay s.pos ≤ rdByte pay (s.pos + 1) := Nat.not_le.mpr hgt
    constructor
    · simp only [dispatchDecoder, if_neg hne]
    · intro r c hr hc
      simp only [dispatchDecoder, if_neg hne]
      interval_cases r
      · iterate 3 rw [patternRow2Pixels2_out _ _ _ _ _ _ _ (by push_cast; omega) (by push_cast; omega)]
        rw [patternRow2Pixels2_read _ _ _ _ _ _ _ 0 c h8 (by norm_num) hc (by push_cast; ring)]
        all_goals norm_num
      · iterate 3 rw [patternRow2Pixels2_out _ _ _ _ _ _ _ (by push_cast; omega) (by push_cast; omega)]
        rw [patternRow2Pixels2_read _ _ _ _ _ _ _ 1 c h8 (by norm_num) hc (by push_cast; ring)]
        all_goals norm_num
      · iterate 2 rw [patternRow2Pixels2_out _ _ _ _ _ _ _ (by push_cast; omega) (by push_cast; omega)]
        rw [patternRow2Pixels2_read _ _ _ _ _ _ _ 0 c h8 (by norm_num) hc (by push_cast; ring)]
        all_goals norm_num
      · iterate 2 rw [patternRow2Pixels2_out _ _ _ _ _ _ _ (by push_cast; omega) (by push_cast; omega)]
        rw [patternRow2Pixels2_read _ _ _ _ _ _ _ 1 c h8 (by norm_num) hc (by push_cast; ring)]
        all_goals norm_num
      · iterate 1 rw [patternRow2Pixels2_out _ _ _ _ _ _ _ (by push_cast; omega) (by push_cast; omega)]
        rw [patternRow2Pixels2_read _ _ _ _ _ _ _ 0 c h8 (by norm_num) hc (by push_cast; ring)]
        all_goals norm_num
      · iterate 1 rw [patternRow2Pixels2_out _ _ _ _ _ _ _ (by push_cast; omega) (by push_cast; omega)]
        rw [patternRow2Pixels2_read _ _ _ _ _ _ _ 1 c h8 (by norm_num) hc (by push_cast; ring)]
        all_goals norm_num
      · rw [patternRow2Pixels2_read _ _ _ _ _ _ _ 0 c h8 (by norm_num) hc (by push_cast; ring)]
        all_goals norm_num
      · rw [patternRow2Pixels2_read _ _ _ _ _ _ _ 1 c h8 (by norm_num) hc (by push_cast; ring)]
        all_goals norm_num

/-- C5 witness: at width 16 with payload 3, 7, 1, 2, 4, ... the
two-color P0 <= P1 branch writes color 7 at pixel (1,1), since bit 1 of
the second pattern byte (2) is set. -/
theorem mve_c5_opcode7_witness :
    (dispatchDecoder 1000 16 16 (fun n => [3, 7, 1, 2, 4, 8, 16, 32, 64, 128].getD n 0) 7
      { mem := fun _ => 0, frame := 0, pos := 0, remain := 100,
        xb := 0, yb := 0, mapPos := 0, log := [] }).mem 17 = 7 := by
  have h := mve_c5_opcode7 1000 16 16
    (fun n => [3, 7, 1, 2, 4, 8, 16, 32, 64, 128].getD n 0)
    { mem := fun _ => 0, frame := 0, pos := 0, remain := 100,
      xb := 0, yb := 0, mapPos := 0, log := [] } (by norm_num)
  have h2 := (h.1 (by decide)).2 1 1 (by decide) (by decide)
  exact h2.trans (by decide)

/-- C4 (amended).  Opcode 0x9 reads four colors P0..P3 and selects the
pattern granularity by comparing (P0,P1) and (P2,P3): both ascending
gives 1x1 units with 16 pattern bytes (20 bytes total); P0 <= P1 and
P2 > P3 gives 2x2 units with 4 pattern bytes (8 bytes total, not 12);
P0 > P1 and P2 <= P3 gives 2x1 units with 8 pattern bytes (12 bytes
total); P0 > P1 and P2 > P3 gives 1x2 units with 8 pattern bytes
(12 bytes total, not 20). -/
theorem mve_c4_opcode9 (histOff : Int) (w h : Nat) (pay : Nat → Nat) (s : St)
    (h8 : 8 ≤ w) :
    (rdByte pay s.pos ≤ rdByte pay (s.pos + 1) →
      rdByte pay (s.pos + 2) ≤ rdByte pay (s.pos + 3) →
      (dispatchDecoder histOff w h pay 9 s).pos = s.pos + 20 ∧
      (∀ r c : Nat, r < 8 → c < 8 →
        (dispatchDecoder histOff w h pay 9 s).mem
            (s.frame + (r : Int) * (w : Int) + (c : Int)) =
          pick4 (rdByte pay s.pos) (rdByte pay (s.pos + 1))
            (rdByte pay (s.pos + 2)) (rdByte pay (s.pos + 3))
            ((rdByte pay (s.pos + 5 + 2 * r) * 256 + rdByte pay (s.pos + 4 + 2 * r))
              / 4 ^ c % 4))) ∧
    (rdByte pay s.pos ≤ rdByte pay (s.pos + 1) →
      ¬ rdByte pay (s.pos + 2) ≤ rdByte pay (s.pos + 3) →
      (dispatchDecoder histOff w h pay 9 s).pos = s.pos + 8 ∧
      (∀ r c : Nat, r < 8 → c < 8 →
        (dispatchDecoder histOff w h pay 9 s).mem
            (s.frame + (r : Int) * (w : Int) + (c : Int)) =
          pick4 (rdByte pay s.pos) (rdByte pay (s.pos + 1))
            (rdByte pay (s.pos + 2)) (rdByte pay (s.pos + 3))
            (rdByte pay (s.pos + 4 + r / 2) / 4 ^ (c / 2) % 4))) ∧
    (¬ rdByte pay s.pos ≤ rdByte pay (s.pos + 1) →
      rdByte pay (s.pos + 2) ≤ rdByte pay (s.pos + 3) →
      (dispatchDecoder histOff w h pay 9 s).pos = s.pos + 12 ∧
      (∀ r c : Nat, r < 8 → c < 8 →
        (dispatchDecoder histOff w h pay 9 s).mem
            (s.frame + (r : Int) * (w : Int) + (c : Int)) =
          pick4 (rdByte pay s.pos) (rdByte pay (s.pos + 1))
            (rdByte pay (s.pos + 2)) (rdByte pay (s.pos + 3))
            (rdByte pay (s.pos + 4 + r) / 4 ^ (c / 2) % 4))) ∧
    (¬ rdByte pay s.pos ≤ rdByte pay (s.pos + 1) →
      ¬ rdByte pay (s.pos + 2) ≤ rdByte pay (s.pos + 3) →
      (dispatchDecoder histOff w h pay 9 s).pos = s.pos + 12 ∧
      (∀ r c : Nat, r < 8 → c < 8 →
        (dispatchDecoder histOff w h pay 9 s).mem
            (s.frame + (r : Int) * (w : Int) + (c : Int)) =
          pick4 (rdByte pay s.pos) (rdByte pay (s.pos + 1))
            (rdByte pay (s.pos + 2)) (rdByte pay (s.pos + 3))
            ((rdByte pay (s.pos + 5 + 2 * (r / 2)) * 256
                + rdByte pay (s.pos + 4 + 2 * (r / 2))) / 4 ^ c % 4))) := by
  refine ⟨?_, ?_, ?_, ?_⟩
  · intro hab hcd
    constructor
    · simp only [dispatchDecoder, if_pos hab, if_pos hcd]
    · intro r c hr hc
      simp only [dispatchDecoder, if_pos hab, if_pos hcd, patternRow4Pixels]
      interval_cases r
      · iterate 7 rw [writeRow8_out _ _ _ _ (by push_cast; omega)]
        rw [writeRow8_at _ _ _ _ c hc (by push_cast; ring)]
        all_goals norm_num
      · iterate 6 rw [writeRow8_out _ _ _ _ (by push_cast; omega)]
        rw [writeRow8_at _ _ _ _ c hc (by push_cast; ring)]
        all_goals norm_num
      · iterate 5 rw [writeRow8_out _ _ _ _ (by push_cast; omega)]
        rw [writeRow8_at _ _ _ _ c hc (by push_cast; ring)]
        all_goals norm_num
      · iterate 4 rw [writeRow8_out _ _ _ _ (by push_cast; omega)]
        rw [writeRow8_at _ _ _ _ c hc (by push_cast; ring)]
        all_goals norm_num
      · iterate 3 rw [writeRow8_out _ _ _ _ (by push_cast; omega)]
        rw [writeRow8_at _ _ _ _ c hc (by push_cast; ring)]
        all_goals norm_num
      · iterate 2 rw [writeRow8_out _ _ _ _ (by push_cast; omega)]
        rw [writeRow8_at _ _ _ _ c hc (by push_cast; ring)]
        all_goals norm_num
      · iterate 1 rw [writeRow8_out _ _ _ _ (by push_cast; omega)]
        rw [writeRow8_at _ _ _ _ c hc (by push_cast; ring)]
        all_goals norm_num
      · rw [writeRow8_at _ _ _ _ c hc (by push_cast; ring)]
        all_goals norm_num
  · intro hab hcd
    constructor
    · simp only [dispatchDecoder, if_pos hab, if_neg hcd]
    · intro r c hr hc
      simp only [dispatchDecoder, if_pos hab, if_neg hcd]
      interval_cases r
      · iterate 3 rw [patternRow4Pixels2_out _ _ _ _ _ _ _ _ _ (by push_cast; omega) (by push_cast; omega)]
        rw [patternRow4Pixels2_read _ _ _ _ _ _ _ _ _ 0 c h8 (by norm_num) hc (by push_cast; ring)]
        all_goals norm_num
      · iterate 3 rw [patternRow4Pixels2_out _ _ _ _ _ _ _ _ _ (by push_cast; omega) (by push_cast; omega)]
        rw [patternRow4Pixels2_read _ _ _ _ _ _ _ _ _ 1 c h8 (by norm_num) hc (by push_cast; ring)]
        all_goals norm_num
      · iterate 2 rw [patternRow4Pixels2_out _ _ _ _ _ _ _ _ _ (by push_cast; omega) (by push_cast; omega)]
        rw [patternRow4Pixels2_read _ _ _ _ _ _ _ _ _ 0 c h8 (by norm_num) hc (by push_cast; ring)]
        all_goals norm_num
      · iterate 2 rw [patternRow4Pixels2_out _ _ _ _ _ _ _ _ _ (by push_cast; omega) (by push_cast; omega)]
        rw [patternRow4Pixels2_read _ _ _ _ _ _ _ _ _ 1 c h8 (by norm_num) hc (by push_cast; ring)]
        all_goals norm_num
      · iterate 1 rw [patternRow4Pixels2_out _ _ _ _ _ _ _ _ _ (by push_cast; omega) (by push_cast; omega)]
        rw [patternRow4Pixels2_read _ _ _ _ _ _ _ _ _ 0 c h8 (by norm_num) hc (by push_cast; ring)]
        all_goals norm_num
      · iterate 1 rw [patternRow4Pixels2_out _ _ _ _ _ _ _ _ _ (by push_cast; omega) (by push_cast; omega)]
        rw [patternRow4Pixels2_read _ _ _ _ _ _ _ _ _ 1 c h8 (by norm_num) hc (by push_cast; ring)]
        all_goals norm_num
      · rw [patternRow4Pixels2_read _ _ _ _ _ _ _ _ _ 0 c h8 (by norm_num) hc (by push_cast; ring)]
        all_goals norm_num
      · rw [patternRow4Pixels2_read _ _ _ _ _ _ _ _ _ 1 c h8 (by norm_num) hc (by push_cast; ring)]
        all_goals norm_num
  · intro hab hcd
    constructor
    · simp only [dispatchDecoder, if_neg hab, if_pos hcd]
    · intro r c hr hc
      simp only [dispatchDecoder, if_neg hab, if_pos hcd, patternRow4Pixels2x1]
      interval_cases r
      · iterate 7 rw [writeRow8_out _ _ _ _ (by push_cast; omega)]
        rw [writeRow8_at _ _ _ _ c hc (by push_cast; ring)]
        all_goals norm_num
      · iterate 6 rw [writeRow8_out _ _ _ _ (by push_cast; omega)]
        rw [writeRow8_at _ _ _ _ c hc (by push_cast; ring)]
        all_goals norm_num
      · iterate 5 rw [writeRow8_out _ _ _ _ (by push_cast; omega)]
        rw [writeRow8_at _ _ _ _ c hc (by push_cast; ring)]
        all_goals norm_num
      · iterate 4 rw [writeRow8_out _ _ _ _ (by push_cast; omega)]
        rw [writeRow8_at _ _ _ _ c hc (by push_cast; ring)]
        all_goals norm_num
      · iterate 3 rw [writeRow8_out _ _ _ _ (by push_cast; omega)]
        rw [writeRow8_at _ _ _ _ c hc (by push_cast; ring)]
        all_goals norm_num
      · iterate 2 rw [writeRow8_out _ _ _ _ (by push_cast; omega)]
        rw [writeRow8_at _ _ _ _ c hc (by push_cast; ring)]
        all_goals norm_num
      · iterate 1 rw [writeRow8_out _ _ _ _ (by push_cast; omega)]
        rw [writeRow8_at _ _ _ _ c hc (by push_cast; ring)]
        all_goals norm_num
      · rw [writeRow8_at _ _ _ _ c hc (by push_cast; ring)]
        all_goals norm_num
  · intro hab hcd
    constructor
    · simp only [dispatchDecoder, if_neg hab, if_neg hcd]
    · intro r c hr hc
      simp only [dispatchDecoder, if_neg hab, if_neg hcd, patternRow4Pixels]
      interval_cases r
      · iterate 7 rw [writeRow8_out _ _ _ _ (by push_cast; omega)]
        rw [writeRow8_at _ _ _ _ c hc (by push_cast; ring)]
        all_goals norm_num
      · iterate 6 rw [writeRow8_out _ _ _ _ (by push_cast; omega)]
        rw [writeRow8_at _ _ _ _ c hc (by push_cast; ring)]
        all_goals norm_num
      · iterate 5 rw [writeRow8_out _ _ _ _ (by push_cast; omega)]
        rw [writeRow8_at _ _ _ _ c hc (by push_cast; ring)]
        all_goals norm_num
      · iterate 4 rw [writeRow8_out _ _ _ _ (by push_cast; omega)]
        rw [writeRow8_at _ _ _ _ c hc (by push_cast; ring)]
        all_goals norm_num
      · iterate 3 rw [writeRow8_out _ _ _ _ (by push_cast; omega)]
        rw [writeRow8_at _ _ _ _ c hc (by push_cast; ring)]
        all_goals norm_num
      · iterate 2 rw [writeRow8_out _ _ _ _ (by push_cast; omega)]
        rw [writeRow8_at _ _ _ _ c hc (by push_cast; ring)]
        all_goals norm_num
      · iterate 1 rw [writeRow8_out _ _ _ _ (by push_cast; omega)]
        rw [writeRow8_at _ _ _ _ c hc (by push_cast; ring)]
        all_goals norm_num
      · rw [writeRow8_at _ _ _ _ c hc (by push_cast; ring)]
        all_goals norm_num

/-- C4 counterexample.  In the branch with P0 <= P1 and P2 > P3 (the
2x2 granularity), opcode 0x9 consumes 4 colors and 4 pattern bytes,
so 8 bytes in total, not the 12 stated in the claim. -/
theorem mve_c4_counterexample :
    (dispatchDecoder 1000 16 16 (fun n => [0, 1, 3, 2].getD n 0) 9
      { mem := fun _ => 0, frame := 0, pos := 0, remain := 100,
        xb := 0, yb := 0, mapPos := 0, log := [] }).pos = 8 ∧
    (8 : Nat) ≠ 12 := by
  exact ⟨by decide, by decide⟩

/-- C4 witness: the amended theorem applied at concrete payloads, one
per granularity branch, giving totals 20, 8, 12 and 12. -/
theorem mve_c4_opcode9_witness :
    (dispatchDecoder 1000 16 16 (fun _ => 5) 9
      { mem := fun _ => 0, frame := 0, pos := 0, remain := 100,
        xb := 0, yb := 0, mapPos := 0, log := [] }).pos = 0 + 20 ∧
    (dispatchDecoder 1000 16 16 (fun n => [0, 1, 3, 2].getD n 0) 9
      { mem := fun _ => 0, frame := 0, pos := 0, remain := 100,
        xb := 0, yb := 0, mapPos := 0, log := [] }).pos = 0 + 8 ∧
    (dispatchDecoder 1000 16 16 (fun n => [9, 2, 3, 5].getD n 0) 9
      { mem := fun _ => 0, frame := 0, pos := 0, remain := 100,
        xb := 0, yb := 0, mapPos := 0, log := [] }).pos = 0 + 12 ∧
    (dispatchDecoder 1000 16 16 (fun n => [9, 2, 5, 3].getD n 0) 9
      { mem := fun _ => 0, frame := 0, pos := 0, remain := 100,
        xb := 0, yb := 0, mapPos := 0, log := [] }).pos = 0 + 12 := by
  refine ⟨?_, ?_, ?_, ?_⟩
  · exact ((mve_c4_opcode9 1000 16 16 (fun _ => 5)
      { mem := fun _ => 0, frame := 0, pos := 0, remain := 100,
        xb := 0, yb := 0, mapPos := 0, log := [] } (by norm_num)).1
      (by decide) (by decide)).1
  · exact ((mve_c4_opcode9 1000 16 16 (fun n => [0, 1, 3, 2].getD n 0)
      { mem := fun _ => 0, frame := 0, pos := 0, remain := 100,
        xb := 0, yb := 0, mapPos := 0, log := [] } (by norm_num)).2.1
      (by decide) (by decide)).1
  · exact ((mve_c4_opcode9 1000 16 16 (fun n => [9, 2, 3, 5].getD n 0)
      { mem := fun _ => 0, frame := 0, pos := 0, remain := 100,
        xb := 0, yb := 0, mapPos := 0, log := [] } (by norm_num)).2.2.1
      (by decide) (by decide)).1
  · exact ((mve_c4_opcode9 1000 16 16 (fun n => [9, 2, 5, 3].getD n 0)
      { mem := fun _ => 0, frame := 0, pos := 0, remain := 100,
        xb := 0, yb := 0, mapPos := 0, log := [] } (by norm_num)).2.2.2
      (by decide) (by decide)).1



theorem innerLoop_w8 (histOff : Int) (h : Nat) (pay mp : Nat → Nat) :
    ∀ (fuel : Nat) (s : St), s.xb = 0 →
      innerLoop histOff 8 h pay mp fuel s = s := by
  intro fuel s hx
  cases fuel with
  | zero => rfl
  | succ n =>
    simp only [innerLoop]
    rw [if_neg (by rw [hx]; norm_num)]

theorem outerLoop_w8 (histOff : Int) (h : Nat) (pay mp : Nat → Nat) :
    ∀ (fuel : Nat) (s : St),
      (outerLoop histOff 8 h pay mp fuel s).mem = s.mem ∧
      (outerLoop histOff 8 h pay mp fuel s).mapPos = s.mapPos ∧
      (outerLoop histOff 8 h pay mp fuel s).pos = s.pos := by
  intro fuel
  induction fuel with
  | zero => intro s; exact ⟨rfl, rfl, rfl⟩
  | succ n ih =>
    intro s
    simp only [outerLoop]
    split_ifs with hy
    · rw [innerLoop_w8 histOff h pay mp 8 { s with xb := 0 } rfl]
      exact ih _
    · exact ⟨rfl, rfl, rfl⟩

/-- C10 (amended).  When width is 8 the inner loop bound (width/8)/2 is
zero, so decodeFrame8 dispatches nothing at all: the destination buffer
is returned entirely unmodified and neither the opcode map nor the
payload is read.  (The stronger claim, that for every width with an odd
number of 8-pixel block columns the bytes of the last block column are
left unchanged, is false: see the counterexample.) -/
theorem mve_c10_width8 (histOff : Int) (h : Nat) (mp pay : Nat → Nat)
    (mem : Mem) (remain : Int) :
    (decodeFrame8 histOff 8 h mp pay mem remain).mem = mem ∧
    (decodeFrame8 histOff 8 h mp pay mem remain).mapPos = 0 ∧
    (decodeFrame8 histOff 8 h mp pay mem remain).pos = 0 := by
  exact outerLoop_w8 histOff h pay mp h _

/-- C10 counterexample.  With width 24 (three block columns, so one map
byte per block row), height 16, map bytes 0x11 then 0xbb and payload
bytes 1, the per-row cursor advance of 16 + 7*24 = 184 bytes falls 8
bytes short of a full 8-row band, so the second row of dispatches
writes a raw block starting at offset 184 = 7*24 + 16 - a byte inside
the last 8-pixel-wide block column (columns 16..23), which the claim
says is never written.  That byte starts as 0 and ends as 1. -/
theorem mve_c10_counterexample :
    (decodeFrame8 1000 24 16 (fun n => if n = 0 then 0x11 else 0xbb)
      (fun _ => 1) (fun _ => 0) 100).mem 184 = 1 ∧
    (184 : Int) = 7 * 24 + 16 ∧ (16 : Nat) / 8 = 24 / 8 - 1 := by
  refine ⟨by decide, by decide, by decide⟩

theorem innerLoop_all1 (histOff : Int) (w h : Nat) (pay mp : Nat → Nat)
    (hmp : ∀ n : Nat, rdByte mp n = 17) :
    ∀ (fuel : Nat) (s : St), (innerLoop histOff w h pay mp fuel s).mem = s.mem := by
  intro fuel
  induction fuel with
  | zero => intro s; rfl
  | succ n ih =>
    intro s
    simp only [innerLoop]
    split_ifs with hx
    · rw [ih]
      simp only [pairStep, hmp]
      norm_num
      simp only [dispatchDecoder, checkBounds]
      split_ifs <;> rfl
    · rfl

theorem outerLoop_all1 (histOff : Int) (w h : Nat) (pay mp : Nat → Nat)
    (hmp : ∀ n : Nat, rdByte mp n = 17) :
    ∀ (fuel : Nat) (s : St), (outerLoop histOff w h pay mp fuel s).mem = s.mem := by
  intro fuel
  induction fuel with
  | zero => intro s; rfl
  | succ n ih =>
    intro s
    simp only [outerLoop]
    split_ifs with hy
    · rw [ih, innerLoop_all1 histOff w h pay mp hmp]
    · rfl

/-- C8 (amended).  Opcode 0x1 makes no pixel change, so decoding a frame
whose opcode map consists entirely of 0x1 nibbles (every map byte is
0x11) leaves every byte of memory, destination buffer included, exactly
as it was on entry.  The destination therefore ends bitwise identical
to the historical buffer precisely when it already was on entry - the
buffer-rotation precondition the claim leaves implicit. -/
theorem mve_c8_all1 (histOff : Int) (w h : Nat) (mp pay : Nat → Nat)
    (mem : Mem) (remain : Int) (hmp : ∀ n : Nat, rdByte mp n = 17) :
    (decodeFrame8 histOff w h mp pay mem remain).mem = mem ∧
    ((∀ k : Int, 0 ≤ k → k < ((w * h : Nat) : Int) → mem k = mem (histOff + k)) →
      (∀ k : Int, 0 ≤ k → k < ((w * h : Nat) : Int) →
        (decodeFrame8 histOff w h mp pay mem remain).mem k =
          (decodeFrame8 histOff w h mp pay mem remain).mem (histOff + k))) := by
  have hm : (decodeFrame8 histOff w h mp pay mem remain).mem = mem :=
    outerLoop_all1 histOff w h pay mp hmp h _
  refine ⟨hm, ?_⟩
  intro hpre k hk0 hk1
  rw [hm]
  exact hpre k hk0 hk1

/-- C8 witness: the all-0x1 theorem applied to a concrete 16x8 frame
seeded with the constant 9; the destination comes back untouched. -/
theorem mve_c8_all1_witness :
    (decodeFrame8 1000 16 8 (fun _ => 17) (fun _ => 1) (fun _ => 9) 100).mem =
      (fun _ => 9) := by
  exact (mve_c8_all1 1000 16 8 (fun _ => 17) (fun _ => 1) (fun _ => 9) 100
    (fun _ => rfl)).1

/-- C8 counterexample.  Decoding an all-0x1 frame whose destination does
not already equal the historical buffer leaves them different: with the
historical buffer at offset 1000 holding 7 where the destination holds
5, the decoded destination byte 0 is 5, not the historical 7, so the
destination is not bitwise identical to the historical buffer. -/
theorem mve_c8_counterexample :
    (decodeFrame8 1000 16 8 (fun _ => 0x11) (fun _ => 1)
      (fun x => if x = 0 then 5 else if x = 1000 then 7 else 0) 100).mem 0 = 5 ∧
    (decodeFrame8 1000 16 8 (fun _ => 0x11) (fun _ => 1)
      (fun x => if x = 0 then 5 else if x = 1000 then 7 else 0) 100).mem (1000 + 0) = 7 ∧
    (5 : Nat) ≠ 7 := by
  refine ⟨by decide, by decide, by decide⟩


theorem StExt (a b : St)
    (h1 : a.mem = b.mem) (h2 : a.frame = b.frame) (h3 : a.pos = b.pos)
    (h4 : a.remain = b.remain) (h5 : a.xb = b.xb) (h6 : a.yb = b.yb)
    (h7 : a.mapPos = b.mapPos) (h8 : a.log = b.log) : a = b := by
  cases a; cases b; simp_all

theorem eraseLog_mapPos (s : St) : (eraseLog s).mapPos = s.mapPos := rfl

theorem eraseLog_xb (s : St) : (eraseLog s).xb = s.xb := rfl

theorem eraseLog_yb (s : St) : (eraseLog s).yb = s.yb := rfl

theorem dispatchDecoder_log (histOff : Int) (w h : Nat) (pay : Nat → Nat) (op : Nat)
    (h16 : op < 16) (s : St) (l : List (Nat × Int × Int × Bool)) :
    dispatchDecoder histOff w h pay op { s with log := l } =
      { dispatchDecoder histOff w h pay op s with log := l } := by
  interval_cases op
  all_goals try rfl
  all_goals simp only [dispatchDecoder]
  case «7» => split_ifs <;> rfl
  case «8» => split_ifs <;> rfl
  case «9» => split_ifs <;> rfl
  case «10» => split_ifs <;> rfl
  by_cases hx1 : s.xb + 1 = ((w / 8 : Nat) : Int)
  · rw [skipStep_wrap w h { s with log := l } (by exact hx1), skipStep_wrap w h s hx1]
    by_cases hy1 : s.yb + 1 = ((h / 8 : Nat) : Int)
    · simp [hy1]
    · simp only [hy1, decide_False, Bool.false_eq_true, if_false]
      by_cases hx2 : (0 : Int) + 1 = ((w / 8 : Nat) : Int)
      · rw [skipStep_wrap w h _ (by exact hx2), skipStep_wrap w h _ (by exact hx2)]
      · rw [skipStep_nowrap w h _ (by exact hx2), skipStep_nowrap w h _ (by exact hx2)]
  · rw [skipStep_nowrap w h { s with log := l } (by exact hx1), skipStep_nowrap w h s hx1]
    simp only [Bool.false_eq_true, if_false]
    by_cases hx2 : s.xb + 1 + 1 = ((w / 8 : Nat) : Int)
    · rw [skipStep_wrap w h _ (by exact hx2), skipStep_wrap w h _ (by exact hx2)]
    · rw [skipStep_nowrap w h _ (by exact hx2), skipStep_nowrap w h _ (by exact hx2)]

theorem dispatch_eraseLog (histOff : Int) (w h : Nat) (pay : Nat → Nat) (op : Nat)
    (h16 : op < 16) (s : St) :
    eraseLog (dispatchDecoder histOff w h pay op s) =
      dispatchDecoder histOff w h pay op (eraseLog s) := by
  exact (dispatchDecoder_log histOff w h pay op h16 s []).symm

theorem checkBounds_eq (w h : Nat) (op : Nat) (s : St) :
    checkBounds w h op s =
      { s with log := s.log ++
          (if s.frame < 0 then [(op, s.xb, s.yb, true)]
           else if ((w * h : Nat) : Int) ≤ s.frame then [(op, s.xb, s.yb, false)]
           else []) } := by
  simp only [checkBounds]
  split_ifs <;> simp

theorem cb_eraseLog (w h : Nat) (op : Nat) (s : St) :
    eraseLog (checkBounds w h op s) = eraseLog s := by
  simp only [checkBounds]
  split_ifs <;> rfl

theorem pairStep_eraseLog (histOff : Int) (w h : Nat) (pay mp : Nat → Nat) (s : St) :
    eraseLog (pairStep histOff w h pay mp s) =
      pairStepND histOff w h pay mp (eraseLog s) := by
  have hlo : rdByte mp s.mapPos % 16 < 16 := Nat.mod_lt _ (by norm_num)
  have hhi : rdByte mp s.mapPos / 16 < 16 := by
    have hb : rdByte mp s.mapPos < 256 := Nat.mod_lt _ (by norm_num)
    omega
  simp only [pairStep, pairStepND, eraseLog_mapPos]
  rw [cb_eraseLog, dispatch_eraseLog histOff w h pay _ hhi, cb_eraseLog,
    dispatch_eraseLog histOff w h pay _ hlo]
  rfl

theorem innerLoop_eraseLog (histOff : Int) (w h : Nat) (pay mp : Nat → Nat) :
    ∀ (fuel : Nat) (s : St),
      eraseLog (innerLoop histOff w h pay mp fuel s) =
        innerLoopND histOff w h pay mp fuel (eraseLog s) := by
  intro fuel
  induction fuel with
  | zero => intro s; rfl
  | succ n ih =>
    intro s
    simp only [innerLoop, innerLoopND, eraseLog_xb]
    split_ifs with hx
    · rw [ih]
      congr 1
      rw [← pairStep_eraseLog]
      rfl
    · rfl

theorem outerLoop_eraseLog (histOff : Int) (w h : Nat) (pay mp : Nat → Nat) :
    ∀ (fuel : Nat) (s : St),
      eraseLog (outerLoop histOff w h pay mp fuel s) =
        outerLoopND histOff w h pay mp fuel (eraseLog s) := by
  intro fuel
  induction fuel with
  | zero => intro s; rfl
  | succ n ih =>
    intro s
    simp only [outerLoop, outerLoopND, eraseLog_yb]
    split_ifs with hy
    · rw [ih]
      congr 1
      have hE := innerLoop_eraseLog histOff w h pay mp w { s with xb := 0 }
      have hE2 : eraseLog (innerLoop histOff w h pay mp w { s with xb := 0 }) =
          innerLoopND histOff w h pay mp w { eraseLog s with xb := 0 } := hE
      have hm := congrArg St.mem hE2
      have hf := congrArg St.frame hE2
      have hp := congrArg St.pos hE2
      have hr := congrArg St.remain hE2
      have hxb := congrArg St.xb hE2
      have hyb := congrArg St.yb hE2
      have hmp2 := congrArg St.mapPos hE2
      have hlg := congrArg St.log hE2
      refine StExt _ _ ?_ ?_ ?_ ?_ ?_ ?_ ?_ ?_
      · exact hm
      · exact congrArg (fun z => z + 7 * (w : Int)) hf
      · exact hp
      · exact hr
      · exact hxb
      · exact congrArg (fun z => z + 1) hyb
      · exact hmp2
      · exact hlg
    · rfl

/-- C9.  The out-of-bounds diagnostics of decodeFrame8 never alter the
decode: erasing the log, a full decode equals the decode with every
bounds check removed, so a violation is logged and decoding continues
with the next block.  The bounds check itself compares the write cursor
against the destination region (offsets 0 to width*height) after each
dispatch and, exactly when the cursor is below or above that region,
appends one diagnostic carrying the dispatched opcode and the current
block coordinates. -/
theorem mve_c9_diagnostics (histOff : Int) (w h : Nat) (mp pay : Nat → Nat)
    (mem : Mem) (remain : Int) :
    eraseLog (decodeFrame8 histOff w h mp pay mem remain) =
      decodeFrame8ND histOff w h mp pay mem remain ∧
    (∀ (op : Nat) (s : St),
      checkBounds w h op s =
        { s with log := s.log ++
            (if s.frame < 0 then [(op, s.xb, s.yb, true)]
             else if ((w * h : Nat) : Int) ≤ s.frame then [(op, s.xb, s.yb, false)]
             else []) }) := by
  constructor
  · exact outerLoop_eraseLog histOff w h pay mp h
      { mem := mem, frame := 0, pos := 0, remain := remain,
        xb := 0, yb := 0, mapPos := 0, log := [] }
  · intro op s
    exact checkBounds_eq w h op s


theorem cb_xb (w h : Nat) (op : Nat) (s : St) : (checkBounds w h op s).xb = s.xb := by
  simp only [checkBounds]
  split_ifs <;> rfl

theorem cb_yb (w h : Nat) (op : Nat) (s : St) : (checkBounds w h op s).yb = s.yb := by
  simp only [checkBounds]
  split_ifs <;> rfl

theorem dispatch_counters (histOff : Int) (w h : Nat) (pay : Nat → Nat) (op : Nat)
    (h16 : op < 16) (hne : op ≠ 6) (s : St) :
    (dispatchDecoder histOff w h pay op s).xb = s.xb ∧
    (dispatchDecoder histOff w h pay op s).yb = s.yb := by
  interval_cases op
  all_goals try exact absurd rfl hne
  all_goals simp only [dispatchDecoder]
  all_goals try split_ifs
  all_goals refine ⟨by first | rfl | trivial, by first | rfl | trivial⟩

theorem pairStep_counters (histOff : Int) (w h : Nat) (pay mp : Nat → Nat) (s : St)
    (hlo6 : rdByte mp s.mapPos % 16 ≠ 6) (hhi6 : rdByte mp s.mapPos / 16 ≠ 6) :
    (pairStep histOff w h pay mp s).xb = s.xb ∧
    (pairStep histOff w h pay mp s).yb = s.yb := by
  have hlo : rdByte mp s.mapPos % 16 < 16 := Nat.mod_lt _ (by norm_num)
  have hhi : rdByte mp s.mapPos / 16 < 16 := by
    have hb : rdByte mp s.mapPos < 256 := Nat.mod_lt _ (by norm_num)
    omega
  simp only [pairStep]
  constructor
  · rw [cb_xb, (dispatch_counters histOff w h pay _ hhi hhi6 _).1, cb_xb,
      (dispatch_counters histOff w h pay _ hlo hlo6 _).1]
  · rw [cb_yb, (dispatch_counters histOff w h pay _ hhi hhi6 _).2, cb_yb,
      (dispatch_counters histOff w h pay _ hlo hlo6 _).2]

theorem innerSpec_yb (histOff : Int) (w h : Nat) (pay mp : Nat → Nat)
    (hmp : ∀ k : Nat, rdByte mp k % 16 ≠ 6 ∧ rdByte mp k / 16 ≠ 6) :
    ∀ (n : Nat) (s : St), (innerSpec histOff w h pay mp n s).yb = s.yb := by
  intro n
  induction n with
  | zero => intro s; rfl
  | succ m ih =>
    intro s
    simp only [innerSpec]
    rw [ih]
    exact (pairStep_counters histOff w h pay mp s (hmp s.mapPos).1 (hmp s.mapPos).2).2

theorem innerLoop_spec (histOff : Int) (w h : Nat) (pay mp : Nat → Nat)
    (hmp : ∀ k : Nat, rdByte mp k % 16 ≠ 6 ∧ rdByte mp k / 16 ≠ 6) :
    ∀ (n fuel : Nat), n ≤ fuel → ∀ (s : St),
      s.xb + (n : Int) = ((w / 8 / 2 : Nat) : Int) →
      innerLoop histOff w h pay mp fuel s = innerSpec histOff w h pay mp n s := by
  intro n
  induction n with
  | zero =>
    intro fuel _ s hxb
    cases fuel with
    | zero => rfl
    | succ f =>
      simp only [innerLoop]
      rw [if_neg (by push_cast at hxb ⊢; omega)]
      rfl
  | succ m ih =>
    intro fuel hf s hxb
    obtain ⟨f, rfl⟩ : ∃ f, fuel = f + 1 := ⟨fuel - 1, by omega⟩
    simp only [innerLoop, innerSpec]
    rw [if_pos (by push_cast at hxb ⊢; omega)]
    apply ih f (by omega)
    have hc := pairStep_counters histOff w h pay mp s (hmp s.mapPos).1 (hmp s.mapPos).2
    show (pairStep histOff w h pay mp s).xb + 1 + (m : Int) = ((w / 8 / 2 : Nat) : Int)
    rw [hc.1]
    push_cast at hxb ⊢
    omega

theorem outerLoop_spec (histOff : Int) (w h : Nat) (pay mp : Nat → Nat)
    (hmp : ∀ k : Nat, rdByte mp k % 16 ≠ 6 ∧ rdByte mp k / 16 ≠ 6) :
    ∀ (k fuel : Nat), k ≤ fuel → ∀ (s : St),
      s.yb + (k : Int) = ((h / 8 : Nat) : Int) →
      outerLoop histOff w h pay mp fuel s = outerSpec histOff w h pay mp k s := by
  intro k
  induction k with
  | zero =>
    intro fuel _ s hyb
    cases fuel with
    | zero => rfl
    | succ f =>
      simp only [outerLoop]
      rw [if_neg (by push_cast at hyb ⊢; omega)]
      rfl
  | succ m ih =>
    intro fuel hf s hyb
    obtain ⟨f, rfl⟩ : ∃ f, fuel = f + 1 := ⟨fuel - 1, by omega⟩
    simp only [outerLoop, outerSpec]
    rw [if_pos (by push_cast at hyb ⊢; omega)]
    rw [innerLoop_spec histOff w h pay mp hmp (w / 8 / 2) w (by omega)
      { s with xb := 0 } (by show (0 : Int) + _ = _; omega)]
    apply ih f (by omega)
    have hy2 := innerSpec_yb histOff w h pay mp hmp (w / 8 / 2) { s with xb := 0 }
    show (innerSpec histOff w h pay mp (w / 8 / 2) { s with xb := 0 }).yb + 1 +
        (m : Int) = ((h / 8 : Nat) : Int)
    rw [hy2]
    show s.yb + 1 + (m : Int) = ((h / 8 : Nat) : Int)
    push_cast at hyb ⊢
    omega

/-- C6 (amended).  Provided no nibble of the opcode map is 0x6 (the
skip opcode, which mutates the loop counters of the walker),
decodeFrame8 walks the frame exactly as the specification describes:
height/8 block rows, each reading width/16 map bytes in stream order,
dispatching the low nibble then the high nibble of every byte, and
advancing the write cursor by 7*width after each row. -/
theorem mve_c6_walk (histOff : Int) (w h : Nat) (mp pay : Nat → Nat)
    (mem : Mem) (remain : Int)
    (hmp : ∀ k : Nat, rdByte mp k % 16 ≠ 6 ∧ rdByte mp k / 16 ≠ 6) :
    decodeFrame8 histOff w h mp pay mem remain =
      decodeFrameSpec histOff w h mp pay mem remain := by
  exact outerLoop_spec histOff w h pay mp hmp (h / 8) h (Nat.div_le_self h 8)
    { mem := mem, frame := 0, pos := 0, remain := remain,
      xb := 0, yb := 0, mapPos := 0, log := [] }
    (by show (0 : Int) + _ = _; omega)

/-- C6 witness: the walk theorem applied to a 16x8 frame whose map
bytes are all 0x11 (no skip opcodes). -/
theorem mve_c6_walk_witness :
    decodeFrame8 935 16 8 (fun _ => 0x11) (fun _ => 2) (fun _ => 0) 50 =
      decodeFrameSpec 935 16 8 (fun _ => 0x11) (fun _ => 2) (fun _ => 0) 50 := by
  exact mve_c6_walk 935 16 8 (fun _ => 0x11) (fun _ => 2) (fun _ => 0) 50
    (fun k => ⟨by norm_num [rdByte], by norm_num [rdByte]⟩)

/-- C6 counterexample.  With width 32, height 16 and a map consisting
entirely of 0x66 bytes, the skip opcode feeds back into the loop
counters: decodeFrame8 reads only 3 map bytes where the walk described
by the claim reads 4 (one per pair of blocks in each of the two block
rows), so the two walks differ. -/
theorem mve_c6_counterexample :
    decodeFrame8 1000 32 16 (fun _ => 0x66) (fun _ => 1) (fun _ => 0) 100 ≠
      decodeFrameSpec 1000 32 16 (fun _ => 0x66) (fun _ => 1) (fun _ => 0) 100 := by
  intro he
  exact absurd (congrArg St.mapPos he) (by decide)

end MVE
